import Mathlib

/-!
Verification of the cluster-awareness (SDAM) layer of a MongoDB driver.

The development shallowly embeds:
* the `GetMoreOperation` of `src/operations/get_more.ts` (its constructor,
  its `execute` method and its declared aspects), translated directly from
  the TypeScript source;
* the SDAM data model and transition engine (`ServerDescription`,
  `TopologyDescription`, the `apply` step of the Topology), the Monitor's
  description-building step, and the RetryableExecutor's retry
  orchestration.  The code of those components is not part of the source
  tree, so they are modelled from the specification document, as noted in
  their doc comments.

Machine integers do not occur: set versions, election ids and cursor ids
are unbounded counters in the source (BSON Long / monotonic identifiers),
so they are embedded as `Nat`/`Int`.
-/

namespace SdamCore

/-- Modelled from the spec: the eight server classifications of §3
(`ServerDescription.type`). -/
inductive ServerType where
  | Unknown
  | Standalone
  | Mongos
  | RSPrimary
  | RSSecondary
  | RSArbiter
  | RSOther
  | RSGhost
deriving DecidableEq, Repr

/-- Modelled from the spec: immutable snapshot of one server's observed
state (§3).  Fields not consulted by any transition rule (round-trip time,
wire versions, tags, timestamps) are omitted; `setVersion`/`electionId`
are the monotonic identifiers used to reject stale primary claims, with
`0` standing for "never reported". -/
structure ServerDescription where
  address : String
  type : ServerType
  setName : Option String
  setVersion : Nat
  electionId : Nat
  hosts : List String
  error : Option String
deriving DecidableEq, Repr

/-- Modelled from the spec: the five deployment classifications of §3
(`TopologyDescription.type`). -/
inductive TopologyType where
  | Single
  | ReplicaSetNoPrimary
  | ReplicaSetWithPrimary
  | Sharded
  | Unknown
deriving DecidableEq, Repr

/-- Modelled from the spec: immutable snapshot of the whole deployment
(§3).  `servers` is an association list keyed by canonical address;
`maxSetVersion`/`maxElectionId` are the high-water marks across all
observed primaries. -/
structure TopologyDescription where
  type : TopologyType
  servers : List (String × ServerDescription)
  setName : Option String
  maxSetVersion : Nat
  maxElectionId : Nat
deriving DecidableEq, Repr

/-- A fresh `Unknown` description for an address: the state a Monitor
starts from and the state a demoted or placeholder member is given. -/
def unknownServer (a : String) : ServerDescription :=
  { address := a, type := .Unknown, setName := none, setVersion := 0,
    electionId := 0, hosts := [], error := none }

/-- Whether the association list tracks an address. -/
def trackedIn (s : List (String × ServerDescription)) (a : String) : Bool :=
  s.any (fun p => p.1 = a)

/-- Lookup of an address in the association list. -/
def lookupIn (s : List (String × ServerDescription)) (a : String) :
    Option ServerDescription :=
  (s.find? (fun p => p.1 = a)).map Prod.snd

/-- Substitute the description stored for an address (step 2 of `apply`). -/
def replaceServer (s : List (String × ServerDescription)) (a : String)
    (d : ServerDescription) : List (String × ServerDescription) :=
  s.map (fun p => if p.1 = a then (a, d) else p)

/-- Remove an address from tracking (the misconfiguration guard and the
member-list reconciliation both drop entries this way). -/
def removeServer (s : List (String × ServerDescription)) (a : String) :
    List (String × ServerDescription) :=
  s.filter (fun p => ¬ p.1 = a)

/-- Whether an entry of the server map claims the primary role. -/
def isPrimaryEntry (p : String × ServerDescription) : Bool :=
  p.2.type = .RSPrimary

/-- Number of entries claiming the primary role. -/
def primaryCountIn (s : List (String × ServerDescription)) : Nat :=
  (s.filter isPrimaryEntry).length

/-- Number of servers of type `RSPrimary` in a TopologyDescription. -/
def primaryCount (t : TopologyDescription) : Nat :=
  primaryCountIn t.servers

/-- Address of the first entry claiming the primary role, if any. -/
def primaryAddrIn (s : List (String × ServerDescription)) : Option String :=
  (s.find? isPrimaryEntry).map Prod.fst

/-- The current primary's address of a TopologyDescription, if any. -/
def primaryAddr (t : TopologyDescription) : Option String :=
  primaryAddrIn t.servers

/-- Whether a TopologyDescription tracks an address. -/
def isTracked (t : TopologyDescription) (a : String) : Bool :=
  trackedIn t.servers a

/-- Modelled from the spec: lexicographic comparison of
`(electionId, setVersion)` pairs, `electionId` first, used to validate a
primary claim against the recorded high-water marks. -/
def pairGt (e1 s1 e2 s2 : Nat) : Bool :=
  e2 < e1 || (e1 = e2 && s2 < s1)

/-- Whether a server type is a replica-set member report that carries a
set name subject to the misconfiguration guard (`RSGhost` hides its set
name while in ghost state, so it is exempt). -/
def isRSMemberType : ServerType → Bool
  | .RSPrimary | .RSSecondary | .RSArbiter | .RSOther => true
  | _ => false

/-- Whether a reported set name contradicts a recorded one. -/
def nameConflict (o : Option String) (d : ServerDescription) : Bool :=
  isRSMemberType d.type &&
    match o, d.setName with
    | some n, some m => n != m
    | _, _ => false

/-- Modelled from the spec: the misconfiguration guard of §4.2 — a server
reporting a replica-set name that contradicts the topology's recorded one
is removed from tracking. -/
def setNameConflict (t : TopologyDescription) (d : ServerDescription) : Bool :=
  nameConflict t.setName d

/-- A recorded set name survives; a missing one is adopted from the report. -/
def adoptOpt (o dn : Option String) : Option String :=
  o.orElse (fun _ => dn)

/-- Adopt the reported set name when the topology has none yet. -/
def adoptName (t : TopologyDescription) (d : ServerDescription) : Option String :=
  adoptOpt t.setName d.setName

/-- Modelled from the spec: re-derive a replica-set topology type from the
member map — `ReplicaSetWithPrimary` exactly when some tracked member
claims the primary role. -/
def checkHasPrimary (s : List (String × ServerDescription)) : TopologyType :=
  if s.any isPrimaryEntry then .ReplicaSetWithPrimary else .ReplicaSetNoPrimary

/-- New high-water marks after an accepted primary claim: the claim's pair
when it is lexicographically greater, the old marks otherwise (a
re-announcement by the current primary never lowers them). -/
def updatedMarks (t : TopologyDescription) (d : ServerDescription) : Nat × Nat :=
  if pairGt d.electionId d.setVersion t.maxElectionId t.maxSetVersion then
    (d.electionId, d.setVersion)
  else (t.maxElectionId, t.maxSetVersion)

/-- The entry kept for host `h` when the member list is reconciled to an
accepted primary's report: the primary's own description at its address,
an existing non-primary description where one is tracked (any other
entry still claiming primary is demoted to `Unknown`), and a fresh
`Unknown` placeholder for a newly discovered member. -/
def memberFor (t : TopologyDescription) (d : ServerDescription) (h : String) :
    ServerDescription :=
  if h = d.address then d
  else
    match lookupIn t.servers h with
    | some old => if old.type = .RSPrimary then unknownServer h else old
    | none => unknownServer h

/-- Modelled from the spec: after accepting a primary claim the server set
is reconciled to exactly the member list the new primary reports (§4.2). -/
def reconcileFromPrimary (t : TopologyDescription) (d : ServerDescription) :
    List (String × ServerDescription) :=
  d.hosts.dedup.map (fun h => (h, memberFor t d h))

/-- Modelled from the spec: handling of an incoming `RSPrimary` claim in a
replica-set-tracking state (§4.2).  A claim from the current primary's own
address is a re-announcement and is accepted; a claim from a different
address is validated against the high-water marks and, when its
`(electionId, setVersion)` pair is lexicographically not greater, rejected:
the reporting server is demoted to `Unknown`.  An accepted claim updates
the marks, adopts the set name if none is recorded, and reconciles the
member map to the primary's reported host list. -/
def applyRSPrimary (t : TopologyDescription) (d : ServerDescription) :
    TopologyDescription :=
  if primaryAddr t = some d.address
      || pairGt d.electionId d.setVersion t.maxElectionId t.maxSetVersion then
    let ms := updatedMarks t d
    let ss := reconcileFromPrimary t d
    { type := checkHasPrimary ss, servers := ss, setName := adoptName t d,
      maxElectionId := ms.1, maxSetVersion := ms.2 }
  else
    let ss := replaceServer t.servers d.address (unknownServer d.address)
    { t with servers := ss, type := checkHasPrimary ss }

/-- Modelled from the spec: transition for topology type `Single` — the
type never changes and the lone server's report is simply recorded. -/
def applySingle (t : TopologyDescription) (d : ServerDescription) :
    TopologyDescription :=
  { t with servers := replaceServer t.servers d.address d }

/-- Modelled from the spec: transition for topology type `Sharded` — a
`Mongos` or `Unknown` report is recorded; any replica-set or standalone
report is removed from tracking. -/
def applySharded (t : TopologyDescription) (d : ServerDescription) :
    TopologyDescription :=
  match d.type with
  | .Unknown | .Mongos => { t with servers := replaceServer t.servers d.address d }
  | _ => { t with servers := removeServer t.servers d.address }

/-- Modelled from the spec: transition for the initial multi-seed
`Unknown` topology type — adopt the topology type corresponding to the
first classified report (`Single` for `Standalone`, `Sharded` for
`Mongos`, a replica-set type for `RSPrimary`/`RSSecondary`);
`RSGhost`/`RSArbiter`/`RSOther` reports never change the topology type. -/
def applyUnknownState (t : TopologyDescription) (d : ServerDescription) :
    TopologyDescription :=
  if setNameConflict t d then
    { t with servers := removeServer t.servers d.address }
  else
    match d.type with
    | .Unknown | .RSGhost | .RSArbiter | .RSOther =>
        { t with servers := replaceServer t.servers d.address d }
    | .Standalone => { t with type := .Single, servers := [(d.address, d)] }
    | .Mongos =>
        { t with type := .Sharded, servers := replaceServer t.servers d.address d }
    | .RSPrimary => applyRSPrimary t d
    | .RSSecondary =>
        { t with type := .ReplicaSetNoPrimary,
                 servers := replaceServer t.servers d.address d,
                 setName := adoptName t d }

/-- Modelled from the spec: transition for topology type
`ReplicaSetNoPrimary` — a mismatched set name removes the member; a
primary claim goes through the high-water-mark validation; a secondary
report is recorded and may supply the set name; `Standalone`/`Mongos`
reports are removed from tracking; `Unknown`/`RSGhost`/`RSArbiter`/
`RSOther` reports only update the member's own entry. -/
def applyNoPrimary (t : TopologyDescription) (d : ServerDescription) :
    TopologyDescription :=
  if setNameConflict t d then
    { t with servers := removeServer t.servers d.address }
  else
    match d.type with
    | .Unknown | .RSGhost | .RSArbiter | .RSOther =>
        { t with servers := replaceServer t.servers d.address d }
    | .Standalone | .Mongos =>
        { t with servers := removeServer t.servers d.address }
    | .RSPrimary => applyRSPrimary t d
    | .RSSecondary =>
        { t with servers := replaceServer t.servers d.address d,
                 setName := adoptName t d }

/-- Modelled from the spec: transition for topology type
`ReplicaSetWithPrimary` — as for `ReplicaSetNoPrimary`, except that any
update that records or removes a member re-derives the topology type, so
the current primary reporting `Unknown` demotes the topology to
`ReplicaSetNoPrimary`; `RSGhost`/`RSArbiter`/`RSOther` reports never
change the topology type. -/
def applyWithPrimary (t : TopologyDescription) (d : ServerDescription) :
    TopologyDescription :=
  if setNameConflict t d then
    let ss := removeServer t.servers d.address
    { t with servers := ss, type := checkHasPrimary ss }
  else
    match d.type with
    | .Unknown =>
        let ss := replaceServer t.servers d.address d
        { t with servers := ss, type := checkHasPrimary ss }
    | .RSGhost | .RSArbiter | .RSOther =>
        { t with servers := replaceServer t.servers d.address d }
    | .Standalone | .Mongos =>
        let ss := removeServer t.servers d.address
        { t with servers := ss, type := checkHasPrimary ss }
    | .RSPrimary => applyRSPrimary t d
    | .RSSecondary =>
        let ss := replaceServer t.servers d.address d
        { t with servers := ss, type := checkHasPrimary ss,
                 setName := adoptName t d }

/-- Dispatch on the topology type for a tracked address. -/
def applyTracked (t : TopologyDescription) (d : ServerDescription) :
    TopologyDescription :=
  match t.type with
  | .Single => applySingle t d
  | .Sharded => applySharded t d
  | .Unknown => applyUnknownState t d
  | .ReplicaSetNoPrimary => applyNoPrimary t d
  | .ReplicaSetWithPrimary => applyWithPrimary t d

/-- Modelled from the spec: the Topology's `apply` step (§4.2) — an
update for an untracked address is ignored (late update for a removed
server); otherwise the server map is substituted and the topology type
re-derived via the transition table. -/
def applyUpd (t : TopologyDescription) (d : ServerDescription) :
    TopologyDescription :=
  if isTracked t d.address then applyTracked t d else t

/-- Modelled from the spec: the TopologyDescription a Topology is
constructed with — every seed starts as an `Unknown` placeholder; in
direct-connection mode the type is `Single` with the lone seed, otherwise
the initial multi-seed type `Unknown`. -/
def initialTopology (seeds : List String) (direct : Bool) :
    TopologyDescription :=
  if direct then
    { type := .Single,
      servers := (seeds.take 1).map (fun a => (a, unknownServer a)),
      setName := none, maxSetVersion := 0, maxElectionId := 0 }
  else
    { type := .Unknown,
      servers := seeds.dedup.map (fun a => (a, unknownServer a)),
      setName := none, maxSetVersion := 0, maxElectionId := 0 }

/-- Modelled from the spec: the decoded fields of a successful heartbeat
reply that the Monitor turns into a ServerDescription (§4.1, §6). -/
structure HeartbeatReply where
  serverType : ServerType
  setName : Option String
  setVersion : Nat
  electionId : Nat
  hosts : List String
deriving DecidableEq, Repr

/-- Modelled from the spec: the Monitor's description-building step
(§4.1) — on a successful check it builds a ServerDescription from the
reply with no error recorded; on a failed check (timeout, refused
connection, protocol error) it builds one with `type = Unknown` and the
`error` populated. -/
def serverDescriptionFromCheck (addr : String)
    (outcome : Except String HeartbeatReply) : ServerDescription :=
  match outcome with
  | .ok r =>
      { address := addr, type := r.serverType, setName := r.setName,
        setVersion := r.setVersion, electionId := r.electionId,
        hosts := r.hosts, error := none }
  | .error e =>
      { address := addr, type := .Unknown, setName := none, setVersion := 0,
        electionId := 0, hosts := [], error := some e }

/-- Modelled from the spec: an execution failure as classified by the
RetryableExecutor (§4.4) — `retryableClass` is true for the network /
"not writable primary" / "node is shutting down" class. -/
structure MongoError where
  message : String
  retryableClass : Bool
deriving DecidableEq, Repr

/-- Modelled from the spec: the RetryableExecutor's retry orchestration
(§4.4) for one operation invocation.  `attempt n` is the outcome of the
`n`-th attempt (selection, checkout and send against the then-selected
server).  Returns the surfaced outcome together with the number of
attempts issued: one attempt, plus exactly one retry when the operation
is tagged retryable and the first failure is of the retryable class;
a second failure is surfaced as-is. -/
def executeWithRetry {A : Type} (retryableOp : Bool)
    (attempt : Nat → Except MongoError A) : Except MongoError A × Nat :=
  match attempt 0 with
  | .ok v => (.ok v, 1)
  | .error e1 =>
      if retryableOp && e1.retryableClass then
        match attempt 1 with
        | .ok v => (.ok v, 2)
        | .error e2 => (.error e2, 2)
      else (.error e1, 1)



/-- Concrete replica-set member used in the worked examples: the primary
at `a:27017` reporting `(electionId, setVersion) = (1, 1)` and the member
list `[a, b]`. -/
def exPrimaryA : ServerDescription :=
  { address := "a:27017", type := .RSPrimary, setName := some "rs0",
    setVersion := 1, electionId := 1,
    hosts := ["a:27017", "b:27017"], error := none }

/-- Concrete secondary at `b:27017` of the same replica set. -/
def exSecondaryB : ServerDescription :=
  { address := "b:27017", type := .RSSecondary, setName := some "rs0",
    setVersion := 1, electionId := 1,
    hosts := ["a:27017", "b:27017"], error := none }

/-- A primary claim from `b:27017` carrying the same `(1, 1)` pair as the
recorded high-water marks: a stale claim from a different address. -/
def exStaleB : ServerDescription :=
  { exPrimaryA with address := "b:27017" }

/-- A failed-probe description for `a:27017`: type `Unknown` with the
error populated, as the Monitor produces it. -/
def exErrA : ServerDescription :=
  { address := "a:27017", type := .Unknown, setName := none,
    setVersion := 0, electionId := 0, hosts := [],
    error := some "connection reset" }

/-- Concrete `ReplicaSetWithPrimary` description tracking `a` (primary)
and `b` (secondary) with high-water marks `(1, 1)`. -/
def exTopo : TopologyDescription :=
  { type := .ReplicaSetWithPrimary,
    servers := [("a:27017", exPrimaryA), ("b:27017", exSecondaryB)],
    setName := some "rs0", maxSetVersion := 1, maxElectionId := 1 }

end SdamCore

namespace GetMoreOp

/-- Server handle identified by its address, as passed to `execute`. -/
abbrev Server := String

/-- Logical session identifier standing for the `ClientSession` handle. -/
abbrev SessionId := Nat

/-- Options of `GetMoreOperation` from `src/operations/get_more.ts`
(`GetMoreOptions extends OperationOptions`): `batchSize`, `comment`,
`maxTimeMS`, and the inherited optional `session`. -/
structure GetMoreOptions where
  batchSize : Option Nat
  comment : Option String
  maxTimeMS : Option Nat
  session : Option SessionId
deriving DecidableEq, Repr

/-- The state of a `GetMoreOperation` as set by its constructor in
`src/operations/get_more.ts`: `this.options = options; this.ns = ns;
this.cursorId = cursorId; this.server = server`. -/
structure GetMoreOperation where
  ns : String
  cursorId : Int
  server : Server
  options : GetMoreOptions
deriving DecidableEq, Repr

/-- A call issued against a server handle: either a cursor iteration
(`server.getMore`) or a cursor-creating command such as the original
find/aggregate. -/
inductive ServerCall where
  | getMore (server : Server) (ns : String) (cursorId : Int)
      (opts : GetMoreOptions)
  | createCursor (server : Server) (ns : String)
deriving DecidableEq, Repr

/-- Whether a call is a cursor iteration. -/
def isGetMoreCall : ServerCall → Bool
  | .getMore _ _ _ _ => true
  | .createCursor _ _ => false

/-- Capability tags from `src/operations/operation.ts` as used by
`defineAspects` in `src/operations/get_more.ts`. -/
inductive Aspect where
  | READ_OPERATION
  | WRITE_OPERATION
  | RETRYABLE
  | CURSOR_ITERATING
deriving DecidableEq, Repr

/-- The aspects declared for `GetMoreOperation` by the `defineAspects`
call at the bottom of `src/operations/get_more.ts`. -/
def getMoreAspects : List Aspect :=
  [.READ_OPERATION, .RETRYABLE, .CURSOR_ITERATING]

/-- `GetMoreOperation.execute` from `src/operations/get_more.ts`: it calls
`server.getMore(this.ns, this.cursorId, { ...this.options, session },
callback)` on the server passed as the argument, not on the one stored at
construction time. -/
def GetMoreOperation.execute (op : GetMoreOperation) (server : Server)
    (session : SessionId) : ServerCall :=
  .getMore server op.ns op.cursorId { op.options with session := some session }

/-- Modelled from the spec: the calls the RetryableExecutor issues for a
get-more invocation (§4.4/§8) — every attempt, the retry included, goes
through the operation's own `execute`, against the server selected for
that attempt. -/
def issuedCallsWithRetry (op : GetMoreOperation) (s1 s2 : Server)
    (session : SessionId) (retried : Bool) : List ServerCall :=
  if retried then [op.execute s1 session, op.execute s2 session]
  else [op.execute s1 session]

end GetMoreOp

namespace SdamCore

theorem trackedIn_replace (s : List (String × ServerDescription))
    (a b : String) (d : ServerDescription) :
    trackedIn (replaceServer s a d) b = trackedIn s b := by
  induction s with
  | nil => rfl
  | cons p s ih =>
    simp only [replaceServer, List.map_cons, trackedIn, List.any_cons] at *
    by_cases h : p.1 = a
    · simp [h, ih]
    · simp [h, ih]

theorem trackedIn_remove_self (s : List (String × ServerDescription))
    (a : String) : trackedIn (removeServer s a) a = false := by
  induction s with
  | nil => rfl
  | cons p s ih =>
    simp only [removeServer, trackedIn] at *
    by_cases h : p.1 = a
    · simp [h, List.filter_cons, ih]
    · simp [h, List.filter_cons, ih]

theorem replaceServer_idem (s : List (String × ServerDescription))
    (a : String) (d : ServerDescription) :
    replaceServer (replaceServer s a d) a d = replaceServer s a d := by
  induction s with
  | nil => rfl
  | cons p s ih =>
    simp only [replaceServer, List.map_cons] at *
    by_cases h : p.1 = a
    · simp [h, ih]
    · simp [h, ih]

theorem lookupIn_replace_self (s : List (String × ServerDescription))
    (a : String) (d : ServerDescription) (h : trackedIn s a = true) :
    lookupIn (replaceServer s a d) a = some d := by
  induction s with
  | nil => simp [trackedIn] at h
  | cons p s ih =>
    simp only [trackedIn, List.any_cons, Bool.or_eq_true, decide_eq_true_eq] at h
    by_cases hp : p.1 = a
    · simp [replaceServer, lookupIn, List.find?_cons_of_pos, hp]
    · have h' : trackedIn s a = true := by
        rcases h with h | h
        · exact absurd h hp
        · simpa [trackedIn] using h
      simp only [replaceServer, List.map_cons, if_neg hp]
      have hskip :
          List.find? (fun q => decide (q.1 = a))
              (p :: List.map (fun q => if q.1 = a then (a, d) else q) s) =
            List.find? (fun q => decide (q.1 = a))
              (List.map (fun q => if q.1 = a then (a, d) else q) s) :=
        List.find?_cons_of_neg _ (by simp [hp])
      show Option.map Prod.snd
          (List.find? (fun q => decide (q.1 = a))
            (p :: List.map (fun q => if q.1 = a then (a, d) else q) s)) = some d
      rw [hskip]
      exact ih h'

theorem length_replaceServer (s : List (String × ServerDescription))
    (a : String) (d : ServerDescription) :
    (replaceServer s a d).length = s.length := by
  simp [replaceServer]

theorem primaryCountIn_le_length (s : List (String × ServerDescription)) :
    primaryCountIn s ≤ s.length := by
  simpa [primaryCountIn] using List.length_filter_le isPrimaryEntry s

theorem primaryCountIn_replace_le (s : List (String × ServerDescription))
    (a : String) (d : ServerDescription) (hd : d.type ≠ .RSPrimary) :
    primaryCountIn (replaceServer s a d) ≤ primaryCountIn s := by
  induction s with
  | nil => simp [replaceServer, primaryCountIn]
  | cons p s ih =>
    simp only [replaceServer, List.map_cons, primaryCountIn, List.filter_cons] at *
    by_cases h : p.1 = a
    · have : isPrimaryEntry (a, d) = false := by
        simp [isPrimaryEntry, hd]
      simp only [h, if_pos, this]
      cases hpe : isPrimaryEntry p <;> simp [hpe] <;> omega
    · simp only [if_neg h]
      cases hpe : isPrimaryEntry p <;> simp [hpe] <;> omega

theorem primaryCountIn_remove_le (s : List (String × ServerDescription))
    (a : String) : primaryCountIn (removeServer s a) ≤ primaryCountIn s := by
  have hs : List.Sublist (removeServer s a) s := List.filter_sublist s
  exact List.Sublist.length_le (hs.filter isPrimaryEntry)

theorem trackedIn_of_primaryAddrIn (s : List (String × ServerDescription))
    (a : String) (h : primaryAddrIn s = some a) : trackedIn s a = true := by
  induction s with
  | nil => simp [primaryAddrIn] at h
  | cons p s ih =>
    simp only [primaryAddrIn, List.find?_cons] at h
    simp only [trackedIn, List.any_cons, Bool.or_eq_true]
    cases hpe : isPrimaryEntry p with
    | true =>
        simp [hpe] at h
        left; simp [h]
    | false =>
        simp only [hpe] at h
        right
        exact ih h

theorem primaryAddrIn_replace_nonprimary (s : List (String × ServerDescription))
    (a : String) (d : ServerDescription) (hd : d.type ≠ .RSPrimary)
    (h : primaryAddrIn s ≠ some a) :
    primaryAddrIn (replaceServer s a d) = primaryAddrIn s := by
  induction s with
  | nil => rfl
  | cons p s ih =>
    have hda : isPrimaryEntry (a, d) = false := by simp [isPrimaryEntry, hd]
    simp only [replaceServer, List.map_cons, primaryAddrIn, List.find?_cons] at *
    cases hpe : isPrimaryEntry p with
    | true =>
        have hp1 : p.1 ≠ a := by
          intro hc
          apply h
          simp [hpe, hc]
        rw [if_neg hp1]
        simp [hpe]
    | false =>
        simp only [hpe] at h
        by_cases hp1 : p.1 = a
        · rw [if_pos hp1]
          simp only [hda]
          exact ih h
        · rw [if_neg hp1]
          simp only [hpe]
          exact ih h

theorem pairGt_irrefl (e s : Nat) : pairGt e s e s = false := by
  simp [pairGt]

theorem pairGt_updatedMarks (t : TopologyDescription) (d : ServerDescription) :
    pairGt d.electionId d.setVersion (updatedMarks t d).1 (updatedMarks t d).2 =
      false := by
  unfold updatedMarks
  by_cases h :
      pairGt d.electionId d.setVersion t.maxElectionId t.maxSetVersion = true
  · simp [h, pairGt_irrefl]
  · simp only [Bool.not_eq_true] at h
    simp [h]

theorem adoptOpt_idem (o dn : Option String) :
    adoptOpt (adoptOpt o dn) dn = adoptOpt o dn := by
  cases o <;> cases dn <;> rfl

theorem nameConflict_adopt (o : Option String) (d : ServerDescription)
    (h : nameConflict o d = false) :
    nameConflict (adoptOpt o d.setName) d = false := by
  cases o with
  | none =>
      cases hdn : d.setName with
      | none => simp [nameConflict, adoptOpt, hdn]
      | some m => simp [nameConflict, adoptOpt, hdn]
  | some n => simpa [adoptOpt] using h

theorem trackedIn_map_keys (l : List String) (f : String → ServerDescription)
    (b : String) :
    trackedIn (l.map fun a => (a, f a)) b = l.any (fun a => a = b) := by
  induction l with
  | nil => rfl
  | cons x l ih =>
    simp only [trackedIn] at ih
    simp only [trackedIn, List.map_cons, List.any_cons, ih]

theorem lookupIn_map_keys (l : List String) (f : String → ServerDescription)
    (h : String) (hmem : h ∈ l) :
    lookupIn (l.map fun a => (a, f a)) h = some (f h) := by
  induction l with
  | nil => cases hmem
  | cons x l ih =>
    by_cases hx : x = h
    · subst hx
      simp [lookupIn, List.find?_cons_of_pos]
    · have hmem' : h ∈ l := by
        rcases List.mem_cons.mp hmem with h1 | h1
        · exact absurd h1.symm hx
        · exact h1
      simp only [List.map_cons]
      have hskip :
          List.find? (fun q => decide (q.1 = h))
              ((x, f x) :: l.map fun a => (a, f a)) =
            List.find? (fun q => decide (q.1 = h)) (l.map fun a => (a, f a)) :=
        List.find?_cons_of_neg _ (by simp [hx])
      show Option.map Prod.snd
          (List.find? (fun q => decide (q.1 = h))
            ((x, f x) :: l.map fun a => (a, f a))) = some (f h)
      rw [hskip]
      exact ih hmem'

theorem memberFor_self (t : TopologyDescription) (d : ServerDescription) :
    memberFor t d d.address = d := by
  simp [memberFor]

theorem memberFor_ne_primary (t : TopologyDescription) (d : ServerDescription)
    (h : String) (hne : h ≠ d.address) :
    (memberFor t d h).type ≠ .RSPrimary := by
  simp only [memberFor, if_neg hne]
  cases hl : lookupIn t.servers h with
  | none => simp [unknownServer]
  | some old =>
    by_cases hp : old.type = .RSPrimary
    · simp [hp, unknownServer]
    · simp [hp]

theorem primaryAddrIn_map_keys (l : List String)
    (f : String → ServerDescription) (a : String) (hmem : a ∈ l)
    (hiff : ∀ h, (f h).type = .RSPrimary ↔ h = a) :
    primaryAddrIn (l.map fun h => (h, f h)) = some a := by
  induction l with
  | nil => cases hmem
  | cons x l ih =>
    by_cases hx : x = a
    · subst hx
      have hpe : isPrimaryEntry (x, f x) = true := by
        simp [isPrimaryEntry, (hiff x).mpr rfl]
      simp [primaryAddrIn, List.find?_cons_of_pos _ hpe]
    · have hmem' : a ∈ l := by
        rcases List.mem_cons.mp hmem with h1 | h1
        · exact absurd h1.symm hx
        · exact h1
      have hpe : ¬ (isPrimaryEntry (x, f x) = true) := by
        simp only [isPrimaryEntry, decide_eq_true_eq]
        intro hc
        exact hx ((hiff x).mp hc)
      simp only [List.map_cons]
      show Option.map Prod.fst
          (List.find? isPrimaryEntry ((x, f x) :: l.map fun h => (h, f h))) =
        some a
      rw [List.find?_cons_of_neg _ hpe]
      exact ih hmem'

theorem primaryCountIn_eq_zero_iff (s : List (String × ServerDescription)) :
    primaryCountIn s = 0 ↔ s.any isPrimaryEntry = false := by
  constructor
  · intro h
    rw [List.any_eq_false]
    intro x hx
    have : s.filter isPrimaryEntry = [] := List.length_eq_zero.mp h
    intro hpe
    have : x ∈ s.filter isPrimaryEntry := List.mem_filter.mpr ⟨hx, hpe⟩
    simp_all
  · intro h
    have : s.filter isPrimaryEntry = [] := by
      rw [List.filter_eq_nil]
      intro x hx
      exact fun hpe => by
        rw [List.any_eq_false] at h
        exact h x hx hpe
    simp [primaryCountIn, this]

theorem primaryCountIn_cons (p : String × ServerDescription)
    (s : List (String × ServerDescription)) :
    primaryCountIn (p :: s) =
      (if isPrimaryEntry p then 1 else 0) + primaryCountIn s := by
  simp only [primaryCountIn, List.filter_cons]
  cases hpe : isPrimaryEntry p with
  | false => simp [hpe]
  | true => simp [hpe, Nat.add_comm]

theorem primaryCountIn_map_keys_le_one (l : List String)
    (f : String → ServerDescription) (a : String) (hnd : l.Nodup)
    (himp : ∀ h, (f h).type = .RSPrimary → h = a) :
    primaryCountIn (l.map fun h => (h, f h)) ≤ 1 := by
  induction l with
  | nil => simp [primaryCountIn]
  | cons x l ih =>
    have hnd' := List.nodup_cons.mp hnd
    simp only [List.map_cons]
    rw [primaryCountIn_cons]
    by_cases hpe : isPrimaryEntry (x, f x) = true
    · have hxa : x = a := himp x (by simpa [isPrimaryEntry] using hpe)
      have hzero : primaryCountIn (l.map fun h => (h, f h)) = 0 := by
        rw [primaryCountIn_eq_zero_iff, List.any_eq_false]
        intro q hq
        obtain ⟨h, hh, rfl⟩ := List.mem_map.mp hq
        have hha : h ≠ a := by
          intro hc
          exact hnd'.1 (by rw [hxa, ← hc]; exact hh)
        simp only [isPrimaryEntry, decide_eq_true_eq]
        intro hc
        exact hha (himp h hc)
      simp [hpe, hzero]
    · simp only [Bool.not_eq_true] at hpe
      simp only [hpe, if_false]
      simpa using ih hnd'.2

theorem any_primary_replace_of_zero (s : List (String × ServerDescription))
    (a : String) (d : ServerDescription) (hd : d.type ≠ .RSPrimary)
    (h : primaryCountIn s = 0) :
    (replaceServer s a d).any isPrimaryEntry = false := by
  induction s with
  | nil => rfl
  | cons p s ih =>
    rw [primaryCountIn_cons] at h
    have hp0 : isPrimaryEntry p = false := by
      cases hpe : isPrimaryEntry p
      · rfl
      · rw [hpe, if_pos rfl] at h; omega
    have hs0 : primaryCountIn s = 0 := by
      rw [hp0] at h; simpa using h
    simp only [replaceServer, List.map_cons, List.any_cons, Bool.or_eq_false_iff]
    constructor
    · by_cases hp1 : p.1 = a
      · simp [hp1, isPrimaryEntry, hd]
      · simp [hp1, hp0]
    · exact ih hs0

theorem any_primary_replace_false (s : List (String × ServerDescription))
    (a : String) (d : ServerDescription) (hd : d.type ≠ .RSPrimary)
    (hcount : primaryCountIn s ≤ 1) (haddr : primaryAddrIn s = some a) :
    (replaceServer s a d).any isPrimaryEntry = false := by
  induction s with
  | nil => rfl
  | cons p s ih =>
    rw [primaryCountIn_cons] at hcount
    cases hpe : isPrimaryEntry p with
    | true =>
        have hp1 : p.1 = a := by
          simp only [primaryAddrIn, List.find?_cons_of_pos _ hpe,
            Option.map_some'] at haddr
          exact Option.some.inj haddr
        have hs0 : primaryCountIn s = 0 := by
          rw [hpe] at hcount; simp at hcount; omega
        simp only [replaceServer, List.map_cons, List.any_cons,
          Bool.or_eq_false_iff]
        constructor
        · simp [hp1, isPrimaryEntry, hd]
        · exact any_primary_replace_of_zero s a d hd hs0
    | false =>
        have hfind : List.find? isPrimaryEntry (p :: s) =
            List.find? isPrimaryEntry s :=
          List.find?_cons_of_neg _ (by simp [hpe])
        have haddr' : primaryAddrIn s = some a := by
          simp only [primaryAddrIn] at haddr ⊢
          rw [hfind] at haddr
          exact haddr
        have hcount' : primaryCountIn s ≤ 1 := by
          rw [hpe] at hcount; simpa using hcount
        simp only [replaceServer, List.map_cons, List.any_cons,
          Bool.or_eq_false_iff]
        constructor
        · by_cases hp1 : p.1 = a
          · simp [hp1, isPrimaryEntry, hd]
          · simp [hp1, hpe]
        · exact ih hcount' haddr'

theorem applyUpd_untracked (t : TopologyDescription) (d : ServerDescription)
    (h : isTracked t d.address = false) : applyUpd t d = t := by
  simp [applyUpd, h]

theorem applyUpd_tracked (t : TopologyDescription) (d : ServerDescription)
    (h : isTracked t d.address = true) : applyUpd t d = applyTracked t d := by
  simp [applyUpd, h]

theorem applyTracked_eq_single (t : TopologyDescription) (d : ServerDescription)
    (h : t.type = .Single) : applyTracked t d = applySingle t d := by
  unfold applyTracked
  rw [h]

theorem applyTracked_eq_sharded (t : TopologyDescription) (d : ServerDescription)
    (h : t.type = .Sharded) : applyTracked t d = applySharded t d := by
  unfold applyTracked
  rw [h]

theorem applyTracked_eq_unknown (t : TopologyDescription) (d : ServerDescription)
    (h : t.type = .Unknown) : applyTracked t d = applyUnknownState t d := by
  unfold applyTracked
  rw [h]

theorem applyTracked_eq_noprimary (t : TopologyDescription)
    (d : ServerDescription) (h : t.type = .ReplicaSetNoPrimary) :
    applyTracked t d = applyNoPrimary t d := by
  unfold applyTracked
  rw [h]

theorem applyTracked_eq_withprimary (t : TopologyDescription)
    (d : ServerDescription) (h : t.type = .ReplicaSetWithPrimary) :
    applyTracked t d = applyWithPrimary t d := by
  unfold applyTracked
  rw [h]

theorem trackedIn_reconcile (t : TopologyDescription) (d : ServerDescription)
    (b : String) :
    trackedIn (reconcileFromPrimary t d) b =
      d.hosts.dedup.any (fun a => a = b) := by
  simpa [reconcileFromPrimary] using
    trackedIn_map_keys d.hosts.dedup (memberFor t d) b

theorem lookupIn_reconcile (t : TopologyDescription) (d : ServerDescription)
    (h : String) (hmem : h ∈ d.hosts.dedup) :
    lookupIn (reconcileFromPrimary t d) h = some (memberFor t d h) := by
  simpa [reconcileFromPrimary] using
    lookupIn_map_keys d.hosts.dedup (memberFor t d) h hmem

theorem primaryAddrIn_reconcile (t : TopologyDescription)
    (d : ServerDescription) (hd : d.type = .RSPrimary)
    (hmem : d.address ∈ d.hosts.dedup) :
    primaryAddrIn (reconcileFromPrimary t d) = some d.address := by
  refine primaryAddrIn_map_keys d.hosts.dedup (memberFor t d) d.address hmem
    (fun h => ?_)
  constructor
  · intro hc
    by_contra hne
    exact memberFor_ne_primary t d h hne hc
  · intro hc
    rw [hc, memberFor_self]
    exact hd

theorem primaryCountIn_reconcile_le_one (t : TopologyDescription)
    (d : ServerDescription) :
    primaryCountIn (reconcileFromPrimary t d) ≤ 1 := by
  refine primaryCountIn_map_keys_le_one d.hosts.dedup (memberFor t d) d.address
    d.hosts.nodup_dedup (fun h hc => ?_)
  by_contra hne
  exact memberFor_ne_primary t d h hne hc

theorem memberFor_reconcile_stable (t t' : TopologyDescription)
    (d : ServerDescription)
    (hs : t'.servers = reconcileFromPrimary t d) (h : String)
    (hmem : h ∈ d.hosts.dedup) : memberFor t' d h = memberFor t d h := by
  by_cases hx : h = d.address
  · rw [hx, memberFor_self, memberFor_self]
  · have hl : lookupIn t'.servers h = some (memberFor t d h) := by
      rw [hs]
      exact lookupIn_reconcile t d h hmem
    have hnp : (memberFor t d h).type ≠ .RSPrimary :=
      memberFor_ne_primary t d h hx
    set v := memberFor t d h with hv
    show memberFor t' d h = v
    simp only [memberFor, if_neg hx, hl]
    exact if_neg hnp

theorem reconcile_stable (t t' : TopologyDescription) (d : ServerDescription)
    (hs : t'.servers = reconcileFromPrimary t d) :
    reconcileFromPrimary t' d = reconcileFromPrimary t d := by
  unfold reconcileFromPrimary
  apply List.map_congr_left
  intro h hmem
  rw [memberFor_reconcile_stable t t' d hs h hmem]

theorem checkHasPrimary_cases (s : List (String × ServerDescription)) :
    checkHasPrimary s = .ReplicaSetNoPrimary ∨
      checkHasPrimary s = .ReplicaSetWithPrimary := by
  by_cases h : s.any isPrimaryEntry = true
  · right; simp [checkHasPrimary, h]
  · left
    simp only [Bool.not_eq_true] at h
    simp [checkHasPrimary, h]

theorem updatedMarks_of_not_gt (t : TopologyDescription)
    (d : ServerDescription)
    (h : pairGt d.electionId d.setVersion t.maxElectionId t.maxSetVersion =
      false) : updatedMarks t d = (t.maxElectionId, t.maxSetVersion) := by
  unfold updatedMarks
  rw [h]
  simp

theorem applyRSPrimary_accept_eq (t : TopologyDescription)
    (d : ServerDescription)
    (h : (decide (primaryAddr t = some d.address)
      || pairGt d.electionId d.setVersion t.maxElectionId t.maxSetVersion) =
      true) :
    applyRSPrimary t d =
      { type := checkHasPrimary (reconcileFromPrimary t d),
        servers := reconcileFromPrimary t d,
        setName := adoptName t d,
        maxElectionId := (updatedMarks t d).1,
        maxSetVersion := (updatedMarks t d).2 } := by
  unfold applyRSPrimary
  rw [if_pos h]

theorem applyRSPrimary_reject_eq (t : TopologyDescription)
    (d : ServerDescription)
    (h : (decide (primaryAddr t = some d.address)
      || pairGt d.electionId d.setVersion t.maxElectionId t.maxSetVersion) =
      false) :
    applyRSPrimary t d =
      { t with
        servers := replaceServer t.servers d.address (unknownServer d.address),
        type := checkHasPrimary
          (replaceServer t.servers d.address (unknownServer d.address)) } := by
  unfold applyRSPrimary
  rw [if_neg (by simp [h])]

theorem applyTracked_rsprimary (t : TopologyDescription)
    (d : ServerDescription) (hd : d.type = .RSPrimary)
    (hconf : setNameConflict t d = false)
    (ht : t.type = .ReplicaSetNoPrimary ∨ t.type = .ReplicaSetWithPrimary) :
    applyTracked t d = applyRSPrimary t d := by
  rcases ht with h | h
  · rw [applyTracked_eq_noprimary _ _ h]
    unfold applyNoPrimary
    rw [if_neg (by simp [hconf])]
    rw [hd]
  · rw [applyTracked_eq_withprimary _ _ h]
    unfold applyWithPrimary
    rw [if_neg (by simp [hconf])]
    rw [hd]

theorem primaryAddrIn_replace_ne_self (s : List (String × ServerDescription))
    (a : String) (d : ServerDescription) (hd : d.type ≠ .RSPrimary) :
    primaryAddrIn (replaceServer s a d) ≠ some a := by
  induction s with
  | nil => simp [replaceServer, primaryAddrIn]
  | cons p s ih =>
    have hda : isPrimaryEntry (a, d) = false := by simp [isPrimaryEntry, hd]
    simp only [replaceServer, List.map_cons, primaryAddrIn, List.find?_cons] at *
    by_cases hp1 : p.1 = a
    · rw [if_pos hp1]
      simp only [hda]
      exact ih
    · rw [if_neg hp1]
      cases hpe : isPrimaryEntry p with
      | true => simp [hpe, hp1]
      | false =>
          simp only [hpe]
          exact ih

theorem applyRSPrimary_stable (t : TopologyDescription)
    (d : ServerDescription) (hd : d.type = .RSPrimary)
    (hconf : setNameConflict t d = false) :
    applyUpd (applyRSPrimary t d) d = applyRSPrimary t d := by
  by_cases hacc : (decide (primaryAddr t = some d.address)
      || pairGt d.electionId d.setVersion t.maxElectionId t.maxSetVersion) =
      true
  · rw [applyRSPrimary_accept_eq t d hacc]
    by_cases hmem : d.address ∈ d.hosts.dedup
    · have htr : isTracked
          { type := checkHasPrimary (reconcileFromPrimary t d),
            servers := reconcileFromPrimary t d,
            setName := adoptName t d,
            maxElectionId := (updatedMarks t d).1,
            maxSetVersion := (updatedMarks t d).2 } d.address = true := by
        show trackedIn (reconcileFromPrimary t d) d.address = true
        rw [trackedIn_reconcile, List.any_eq_true]
        exact ⟨d.address, hmem, by simp⟩
      rw [applyUpd_tracked _ d htr]
      have hconf' : setNameConflict
          { type := checkHasPrimary (reconcileFromPrimary t d),
            servers := reconcileFromPrimary t d,
            setName := adoptName t d,
            maxElectionId := (updatedMarks t d).1,
            maxSetVersion := (updatedMarks t d).2 } d = false := by
        show nameConflict (adoptOpt t.setName d.setName) d = false
        exact nameConflict_adopt t.setName d hconf
      rw [applyTracked_rsprimary _ d hd hconf'
        (checkHasPrimary_cases (reconcileFromPrimary t d))]
      have hpa : primaryAddr
          { type := checkHasPrimary (reconcileFromPrimary t d),
            servers := reconcileFromPrimary t d,
            setName := adoptName t d,
            maxElectionId := (updatedMarks t d).1,
            maxSetVersion := (updatedMarks t d).2 } = some d.address := by
        show primaryAddrIn (reconcileFromPrimary t d) = some d.address
        exact primaryAddrIn_reconcile t d hd hmem
      rw [applyRSPrimary_accept_eq _ d (by rw [hpa]; simp)]
      have hrec : reconcileFromPrimary
          { type := checkHasPrimary (reconcileFromPrimary t d),
            servers := reconcileFromPrimary t d,
            setName := adoptName t d,
            maxElectionId := (updatedMarks t d).1,
            maxSetVersion := (updatedMarks t d).2 } d =
          reconcileFromPrimary t d :=
        reconcile_stable t _ d rfl
      have hmarks : updatedMarks
          { type := checkHasPrimary (reconcileFromPrimary t d),
            servers := reconcileFromPrimary t d,
            setName := adoptName t d,
            maxElectionId := (updatedMarks t d).1,
            maxSetVersion := (updatedMarks t d).2 } d =
          ((updatedMarks t d).1, (updatedMarks t d).2) :=
        updatedMarks_of_not_gt _ d (pairGt_updatedMarks t d)
      have hname : adoptName
          { type := checkHasPrimary (reconcileFromPrimary t d),
            servers := reconcileFromPrimary t d,
            setName := adoptName t d,
            maxElectionId := (updatedMarks t d).1,
            maxSetVersion := (updatedMarks t d).2 } d = adoptName t d := by
        show adoptOpt (adoptOpt t.setName d.setName) d.setName =
          adoptOpt t.setName d.setName
        exact adoptOpt_idem t.setName d.setName
      rw [hrec, hmarks, hname]
    · have htr : isTracked
          { type := checkHasPrimary (reconcileFromPrimary t d),
            servers := reconcileFromPrimary t d,
            setName := adoptName t d,
            maxElectionId := (updatedMarks t d).1,
            maxSetVersion := (updatedMarks t d).2 } d.address = false := by
        show trackedIn (reconcileFromPrimary t d) d.address = false
        rw [trackedIn_reconcile, List.any_eq_false]
        intro x hx
        simp only [decide_eq_true_eq]
        intro hxa
        exact hmem (hxa ▸ hx)
      rw [applyUpd_untracked _ d htr]
  · have hacc0 : (decide (primaryAddr t = some d.address)
        || pairGt d.electionId d.setVersion t.maxElectionId t.maxSetVersion) =
        false := by
      simpa using hacc
    have hgt : pairGt d.electionId d.setVersion t.maxElectionId
        t.maxSetVersion = false := by
      rcases Bool.or_eq_false_iff.mp hacc0 with ⟨_, h2⟩
      exact h2
    rw [applyRSPrimary_reject_eq t d hacc0]
    by_cases htr : trackedIn t.servers d.address = true
    · have htr' : isTracked
          { t with
            servers := replaceServer t.servers d.address
              (unknownServer d.address),
            type := checkHasPrimary (replaceServer t.servers d.address
              (unknownServer d.address)) } d.address = true := by
        show trackedIn (replaceServer t.servers d.address
          (unknownServer d.address)) d.address = true
        rw [trackedIn_replace]
        exact htr
      rw [applyUpd_tracked _ d htr']
      have hconf' : setNameConflict
          { t with
            servers := replaceServer t.servers d.address
              (unknownServer d.address),
            type := checkHasPrimary (replaceServer t.servers d.address
              (unknownServer d.address)) } d = false := hconf
      rw [applyTracked_rsprimary _ d hd hconf'
        (checkHasPrimary_cases (replaceServer t.servers d.address
          (unknownServer d.address)))]
      have hpa : primaryAddr
          { t with
            servers := replaceServer t.servers d.address
              (unknownServer d.address),
            type := checkHasPrimary (replaceServer t.servers d.address
              (unknownServer d.address)) } ≠ some d.address := by
        show primaryAddrIn (replaceServer t.servers d.address
          (unknownServer d.address)) ≠ some d.address
        exact primaryAddrIn_replace_ne_self t.servers d.address
          (unknownServer d.address) (by simp [unknownServer])
      rw [applyRSPrimary_reject_eq _ d (by simp [hpa, hgt])]
      rw [show replaceServer (replaceServer t.servers d.address
          (unknownServer d.address)) d.address (unknownServer d.address) =
          replaceServer t.servers d.address (unknownServer d.address) from
        replaceServer_idem t.servers d.address (unknownServer d.address)]
    · have htr' : isTracked
          { t with
            servers := replaceServer t.servers d.address
              (unknownServer d.address),
            type := checkHasPrimary (replaceServer t.servers d.address
              (unknownServer d.address)) } d.address = false := by
        show trackedIn (replaceServer t.servers d.address
          (unknownServer d.address)) d.address = false
        rw [trackedIn_replace]
        simpa using htr
      rw [applyUpd_untracked _ d htr']

theorem replaceServer_singleton (a : String) (d : ServerDescription) :
    replaceServer [(a, d)] a d = [(a, d)] := by
  simp [replaceServer]

theorem applyUnknownState_stable (t : TopologyDescription)
    (d : ServerDescription) (ht : t.type = .Unknown) :
    applyUpd (applyUnknownState t d) d = applyUnknownState t d := by
  by_cases hc : setNameConflict t d = true
  · unfold applyUnknownState
    rw [if_pos hc]
    exact applyUpd_untracked _ d (trackedIn_remove_self t.servers d.address)
  · have hc0 : setNameConflict t d = false := by simpa using hc
    by_cases hrec : d.type = .Unknown ∨ d.type = .RSGhost ∨
        d.type = .RSArbiter ∨ d.type = .RSOther
    · have h1 : applyUnknownState t d =
          { t with servers := replaceServer t.servers d.address d } := by
        unfold applyUnknownState
        rw [if_neg hc]
        rcases hrec with h | h | h | h <;> rw [h]
      rw [h1]
      generalize hR : replaceServer t.servers d.address d = R
      have hRR : replaceServer R d.address d = R := by
        rw [← hR]
        exact replaceServer_idem t.servers d.address d
      by_cases htr : trackedIn t.servers d.address = true
      · have htr' : isTracked { t with servers := R } d.address = true := by
          show trackedIn R d.address = true
          rw [← hR, trackedIn_replace]
          exact htr
        rw [applyUpd_tracked _ d htr']
        have ht' : ({ t with servers := R } :
            TopologyDescription).type = .Unknown := ht
        rw [applyTracked_eq_unknown _ d ht']
        have h2 : applyUnknownState { t with servers := R } d =
            { t with servers := replaceServer R d.address d } := by
          unfold applyUnknownState
          rw [if_neg (show ¬ setNameConflict
            { t with servers := R } d = true from hc)]
          rcases hrec with h | h | h | h <;> rw [h]
        rw [h2, hRR]
      · have htr' : isTracked { t with servers := R } d.address = false := by
          show trackedIn R d.address = false
          rw [← hR, trackedIn_replace]
          simpa using htr
        rw [applyUpd_untracked _ d htr']
    · cases hdt : d.type with
      | Unknown => exact absurd (Or.inl hdt) hrec
      | RSGhost => exact absurd (Or.inr (Or.inl hdt)) hrec
      | RSArbiter => exact absurd (Or.inr (Or.inr (Or.inl hdt))) hrec
      | RSOther => exact absurd (Or.inr (Or.inr (Or.inr hdt))) hrec
      | RSPrimary =>
          have h1 : applyUnknownState t d = applyRSPrimary t d := by
            unfold applyUnknownState
            rw [if_neg hc]
            rw [hdt]
          rw [h1]
          exact applyRSPrimary_stable t d hdt hc0
      | Standalone =>
          have h1 : applyUnknownState t d =
              { t with type := .Single, servers := [(d.address, d)] } := by
            unfold applyUnknownState
            rw [if_neg hc]
            rw [hdt]
          rw [h1]
          have htr : isTracked
              { t with type := .Single, servers := [(d.address, d)] }
              d.address = true := by
            show trackedIn [(d.address, d)] d.address = true
            simp [trackedIn]
          rw [applyUpd_tracked _ d htr, applyTracked_eq_single _ d rfl]
          unfold applySingle
          rw [show replaceServer [(d.address, d)] d.address d =
            [(d.address, d)] from replaceServer_singleton d.address d]
      | Mongos =>
          have h1 : applyUnknownState t d =
              { t with
                type := .Sharded,
                servers := replaceServer t.servers d.address d } := by
            unfold applyUnknownState
            rw [if_neg hc]
            rw [hdt]
          rw [h1]
          generalize hR : replaceServer t.servers d.address d = R
          have hRR : replaceServer R d.address d = R := by
            rw [← hR]
            exact replaceServer_idem t.servers d.address d
          by_cases htr : trackedIn t.servers d.address = true
          · have htr' : isTracked
                { t with type := .Sharded, servers := R } d.address =
                true := by
              show trackedIn R d.address = true
              rw [← hR, trackedIn_replace]
              exact htr
            rw [applyUpd_tracked _ d htr',
              applyTracked_eq_sharded _ d rfl]
            have h2 : applySharded { t with
                type := .Sharded, servers := R } d =
                { t with
                  type := .Sharded,
                  servers := replaceServer R d.address d } := by
              unfold applySharded
              rw [hdt]
            rw [h2, hRR]
          · have htr' : isTracked
                { t with type := .Sharded, servers := R } d.address =
                false := by
              show trackedIn R d.address = false
              rw [← hR, trackedIn_replace]
              simpa using htr
            rw [applyUpd_untracked _ d htr']
      | RSSecondary =>
          have h1 : applyUnknownState t d =
              { t with
                type := .ReplicaSetNoPrimary,
                servers := replaceServer t.servers d.address d,
                setName := adoptName t d } := by
            unfold applyUnknownState
            rw [if_neg hc]
            rw [hdt]
          rw [h1]
          generalize hR : replaceServer t.servers d.address d = R
          have hRR : replaceServer R d.address d = R := by
            rw [← hR]
            exact replaceServer_idem t.servers d.address d
          by_cases htr : trackedIn t.servers d.address = true
          · have htr' : isTracked
                { t with
                  type := .ReplicaSetNoPrimary,
                  servers := R,
                  setName := adoptName t d } d.address = true := by
              show trackedIn R d.address = true
              rw [← hR, trackedIn_replace]
              exact htr
            rw [applyUpd_tracked _ d htr',
              applyTracked_eq_noprimary _ d rfl]
            have hc' : ¬ setNameConflict
                { t with
                  type := .ReplicaSetNoPrimary,
                  servers := R,
                  setName := adoptName t d } d = true := by
              have : nameConflict (adoptOpt t.setName d.setName) d = false :=
                nameConflict_adopt t.setName d hc0
              simp [setNameConflict, adoptName] at this ⊢
              exact this
            have h2 : applyNoPrimary
                { t with
                  type := .ReplicaSetNoPrimary,
                  servers := R,
                  setName := adoptName t d } d =
                { t with
                  type := .ReplicaSetNoPrimary,
                  servers := replaceServer R d.address d,
                  setName := adoptOpt (adoptOpt t.setName d.setName)
                    d.setName } := by
              unfold applyNoPrimary
              rw [if_neg hc']
              rw [hdt]
              rfl
            rw [h2, hRR,
              show adoptOpt (adoptOpt t.setName d.setName) d.setName =
                adoptOpt t.setName d.setName from
                adoptOpt_idem t.setName d.setName]
            rfl
          · have htr' : isTracked
                { t with
                  type := .ReplicaSetNoPrimary,
                  servers := R,
                  setName := adoptName t d } d.address = false := by
              show trackedIn R d.address = false
              rw [← hR, trackedIn_replace]
              simpa using htr
            rw [applyUpd_untracked _ d htr']

theorem applySingle_stable (t : TopologyDescription) (d : ServerDescription)
    (ht : t.type = .Single) :
    applyUpd (applySingle t d) d = applySingle t d := by
  have h1 : applySingle t d =
      { t with servers := replaceServer t.servers d.address d } := rfl
  rw [h1]
  generalize hR : replaceServer t.servers d.address d = R
  have hRR : replaceServer R d.address d = R := by
    rw [← hR]
    exact replaceServer_idem t.servers d.address d
  by_cases htr : trackedIn t.servers d.address = true
  · have htr' : isTracked { t with servers := R } d.address = true := by
      show trackedIn R d.address = true
      rw [← hR, trackedIn_replace]
      exact htr
    rw [applyUpd_tracked _ d htr']
    have ht' : ({ t with servers := R } :
        TopologyDescription).type = .Single := ht
    rw [applyTracked_eq_single _ d ht']
    have h2 : applySingle { t with servers := R } d =
        { t with servers := replaceServer R d.address d } := rfl
    rw [h2, hRR]
  · have htr' : isTracked { t with servers := R } d.address = false := by
      show trackedIn R d.address = false
      rw [← hR, trackedIn_replace]
      simpa using htr
    rw [applyUpd_untracked _ d htr']

theorem applySharded_stable (t : TopologyDescription) (d : ServerDescription)
    (ht : t.type = .Sharded) :
    applyUpd (applySharded t d) d = applySharded t d := by
  by_cases hrec : d.type = .Unknown \/ d.type = .Mongos
  · have h1 : applySharded t d =
        { t with servers := replaceServer t.servers d.address d } := by
      unfold applySharded
      rcases hrec with h | h <;> rw [h]
    rw [h1]
    generalize hR : replaceServer t.servers d.address d = R
    have hRR : replaceServer R d.address d = R := by
      rw [← hR]
      exact replaceServer_idem t.servers d.address d
    by_cases htr : trackedIn t.servers d.address = true
    · have htr' : isTracked { t with servers := R } d.address = true := by
        show trackedIn R d.address = true
        rw [← hR, trackedIn_replace]
        exact htr
      rw [applyUpd_tracked _ d htr']
      have ht' : ({ t with servers := R } :
          TopologyDescription).type = .Sharded := ht
      rw [applyTracked_eq_sharded _ d ht']
      have h2 : applySharded { t with servers := R } d =
          { t with servers := replaceServer R d.address d } := by
        unfold applySharded
        rcases hrec with h | h <;> rw [h]
      rw [h2, hRR]
    · have htr' : isTracked { t with servers := R } d.address = false := by
        show trackedIn R d.address = false
        rw [← hR, trackedIn_replace]
        simpa using htr
      rw [applyUpd_untracked _ d htr']
  · have h1 : applySharded t d =
        { t with servers := removeServer t.servers d.address } := by
      unfold applySharded
      cases hdt : d.type with
      | Unknown => exact absurd (Or.inl hdt) hrec
      | Mongos => exact absurd (Or.inr hdt) hrec
      | Standalone => rfl
      | RSPrimary => rfl
      | RSSecondary => rfl
      | RSArbiter => rfl
      | RSOther => rfl
      | RSGhost => rfl
    rw [h1]
    exact applyUpd_untracked _ d (trackedIn_remove_self t.servers d.address)

theorem applyNoPrimary_stable (t : TopologyDescription)
    (d : ServerDescription) (ht : t.type = .ReplicaSetNoPrimary) :
    applyUpd (applyNoPrimary t d) d = applyNoPrimary t d := by
  by_cases hc : setNameConflict t d = true
  · unfold applyNoPrimary
    rw [if_pos hc]
    exact applyUpd_untracked _ d (trackedIn_remove_self t.servers d.address)
  · have hc0 : setNameConflict t d = false := by simpa using hc
    by_cases hrec : d.type = .Unknown ∨ d.type = .RSGhost ∨
        d.type = .RSArbiter ∨ d.type = .RSOther
    · have h1 : applyNoPrimary t d =
          { t with servers := replaceServer t.servers d.address d } := by
        unfold applyNoPrimary
        rw [if_neg hc]
        rcases hrec with h | h | h | h <;> rw [h]
      rw [h1]
      generalize hR : replaceServer t.servers d.address d = R
      have hRR : replaceServer R d.address d = R := by
        rw [← hR]
        exact replaceServer_idem t.servers d.address d
      by_cases htr : trackedIn t.servers d.address = true
      · have htr' : isTracked { t with servers := R } d.address = true := by
          show trackedIn R d.address = true
          rw [← hR, trackedIn_replace]
          exact htr
        rw [applyUpd_tracked _ d htr']
        have ht' : ({ t with servers := R } :
            TopologyDescription).type = .ReplicaSetNoPrimary := ht
        rw [applyTracked_eq_noprimary _ d ht']
        have h2 : applyNoPrimary { t with servers := R } d =
            { t with servers := replaceServer R d.address d } := by
          unfold applyNoPrimary
          rw [if_neg (show ¬ setNameConflict
            { t with servers := R } d = true from hc)]
          rcases hrec with h | h | h | h <;> rw [h]
        rw [h2, hRR]
      · have htr' : isTracked { t with servers := R } d.address = false := by
          show trackedIn R d.address = false
          rw [← hR, trackedIn_replace]
          simpa using htr
        rw [applyUpd_untracked _ d htr']
    · cases hdt : d.type with
      | Unknown => exact absurd (Or.inl hdt) hrec
      | RSGhost => exact absurd (Or.inr (Or.inl hdt)) hrec
      | RSArbiter => exact absurd (Or.inr (Or.inr (Or.inl hdt))) hrec
      | RSOther => exact absurd (Or.inr (Or.inr (Or.inr hdt))) hrec
      | RSPrimary =>
          have h1 : applyNoPrimary t d = applyRSPrimary t d := by
            unfold applyNoPrimary
            rw [if_neg hc]
            rw [hdt]
          rw [h1]
          exact applyRSPrimary_stable t d hdt hc0
      | Standalone =>
          have h1 : applyNoPrimary t d =
              { t with servers := removeServer t.servers d.address } := by
            unfold applyNoPrimary
            rw [if_neg hc]
            rw [hdt]
          rw [h1]
          exact applyUpd_untracked _ d
            (trackedIn_remove_self t.servers d.address)
      | Mongos =>
          have h1 : applyNoPrimary t d =
              { t with servers := removeServer t.servers d.address } := by
            unfold applyNoPrimary
            rw [if_neg hc]
            rw [hdt]
          rw [h1]
          exact applyUpd_untracked _ d
            (trackedIn_remove_self t.servers d.address)
      | RSSecondary =>
          have h1 : applyNoPrimary t d =
              { t with
                servers := replaceServer t.servers d.address d,
                setName := adoptName t d } := by
            unfold applyNoPrimary
            rw [if_neg hc]
            rw [hdt]
          rw [h1]
          generalize hR : replaceServer t.servers d.address d = R
          have hRR : replaceServer R d.address d = R := by
            rw [← hR]
            exact replaceServer_idem t.servers d.address d
          by_cases htr : trackedIn t.servers d.address = true
          · have htr' : isTracked
                { t with servers := R, setName := adoptName t d }
                d.address = true := by
              show trackedIn R d.address = true
              rw [← hR, trackedIn_replace]
              exact htr
            rw [applyUpd_tracked _ d htr']
            have ht' : ({ t with servers := R, setName := adoptName t d } :
                TopologyDescription).type = .ReplicaSetNoPrimary := ht
            rw [applyTracked_eq_noprimary _ d ht']
            have hc' : ¬ setNameConflict
                { t with servers := R, setName := adoptName t d } d =
                true := by
              have hna : nameConflict (adoptOpt t.setName d.setName) d =
                  false := nameConflict_adopt t.setName d hc0
              simp [setNameConflict, adoptName] at hna ⊢
              exact hna
            have h2 : applyNoPrimary
                { t with servers := R, setName := adoptName t d } d =
                { t with
                  servers := replaceServer R d.address d,
                  setName := adoptOpt (adoptOpt t.setName d.setName)
                    d.setName } := by
              unfold applyNoPrimary
              rw [if_neg hc']
              rw [hdt]
              rfl
            rw [h2, hRR,
              show adoptOpt (adoptOpt t.setName d.setName) d.setName =
                adoptOpt t.setName d.setName from
                adoptOpt_idem t.setName d.setName]
            rfl
          · have htr' : isTracked
                { t with servers := R, setName := adoptName t d }
                d.address = false := by
              show trackedIn R d.address = false
              rw [← hR, trackedIn_replace]
              simpa using htr
            rw [applyUpd_untracked _ d htr']

theorem applyWithPrimary_stable (t : TopologyDescription)
    (d : ServerDescription) (ht : t.type = .ReplicaSetWithPrimary) :
    applyUpd (applyWithPrimary t d) d = applyWithPrimary t d := by
  by_cases hc : setNameConflict t d = true
  · unfold applyWithPrimary
    rw [if_pos hc]
    exact applyUpd_untracked _ d (trackedIn_remove_self t.servers d.address)
  · have hc0 : setNameConflict t d = false := by simpa using hc
    by_cases hrec : d.type = .RSGhost ∨ d.type = .RSArbiter ∨
        d.type = .RSOther
    · have h1 : applyWithPrimary t d =
          { t with servers := replaceServer t.servers d.address d } := by
        unfold applyWithPrimary
        rw [if_neg hc]
        rcases hrec with h | h | h <;> rw [h]
      rw [h1]
      generalize hR : replaceServer t.servers d.address d = R
      have hRR : replaceServer R d.address d = R := by
        rw [← hR]
        exact replaceServer_idem t.servers d.address d
      by_cases htr : trackedIn t.servers d.address = true
      · have htr' : isTracked { t with servers := R } d.address = true := by
          show trackedIn R d.address = true
          rw [← hR, trackedIn_replace]
          exact htr
        rw [applyUpd_tracked _ d htr']
        have ht' : ({ t with servers := R } :
            TopologyDescription).type = .ReplicaSetWithPrimary := ht
        rw [applyTracked_eq_withprimary _ d ht']
        have h2 : applyWithPrimary { t with servers := R } d =
            { t with servers := replaceServer R d.address d } := by
          unfold applyWithPrimary
          rw [if_neg (show ¬ setNameConflict
            { t with servers := R } d = true from hc)]
          rcases hrec with h | h | h <;> rw [h]
        rw [h2, hRR]
      · have htr' : isTracked { t with servers := R } d.address = false := by
          show trackedIn R d.address = false
          rw [← hR, trackedIn_replace]
          simpa using htr
        rw [applyUpd_untracked _ d htr']
    · cases hdt : d.type with
      | RSGhost => exact absurd (Or.inl hdt) hrec
      | RSArbiter => exact absurd (Or.inr (Or.inl hdt)) hrec
      | RSOther => exact absurd (Or.inr (Or.inr hdt)) hrec
      | RSPrimary =>
          have h1 : applyWithPrimary t d = applyRSPrimary t d := by
            unfold applyWithPrimary
            rw [if_neg hc]
            rw [hdt]
          rw [h1]
          exact applyRSPrimary_stable t d hdt hc0
      | Standalone =>
          have h1 : applyWithPrimary t d =
              { t with
                servers := removeServer t.servers d.address,
                type := checkHasPrimary
                  (removeServer t.servers d.address) } := by
            unfold applyWithPrimary
            rw [if_neg hc]
            rw [hdt]
          rw [h1]
          exact applyUpd_untracked _ d
            (trackedIn_remove_self t.servers d.address)
      | Mongos =>
          have h1 : applyWithPrimary t d =
              { t with
                servers := removeServer t.servers d.address,
                type := checkHasPrimary
                  (removeServer t.servers d.address) } := by
            unfold applyWithPrimary
            rw [if_neg hc]
            rw [hdt]
          rw [h1]
          exact applyUpd_untracked _ d
            (trackedIn_remove_self t.servers d.address)
      | Unknown =>
          have h1 : applyWithPrimary t d =
              { t with
                servers := replaceServer t.servers d.address d,
                type := checkHasPrimary
                  (replaceServer t.servers d.address d) } := by
            unfold applyWithPrimary
            rw [if_neg hc]
            rw [hdt]
          rw [h1]
          generalize hR : replaceServer t.servers d.address d = R
          have hRR : replaceServer R d.address d = R := by
            rw [← hR]
            exact replaceServer_idem t.servers d.address d
          by_cases htr : trackedIn t.servers d.address = true
          · have htr' : trackedIn R d.address = true := by
              rw [← hR, trackedIn_replace]
              exact htr
            rcases checkHasPrimary_cases R with hcc | hcc <;> rw [hcc]
            · rw [applyUpd_tracked _ d
                (show isTracked { t with
                  servers := R,
                  type := TopologyType.ReplicaSetNoPrimary } d.address = true
                  from htr')]
              rw [applyTracked_eq_noprimary _ d rfl]
              have h2 : applyNoPrimary
                  { t with
                    servers := R,
                    type := TopologyType.ReplicaSetNoPrimary } d =
                  { t with
                    servers := replaceServer R d.address d,
                    type := TopologyType.ReplicaSetNoPrimary } := by
                unfold applyNoPrimary
                rw [if_neg (show ¬ setNameConflict
                  { t with
                    servers := R,
                    type := TopologyType.ReplicaSetNoPrimary } d = true
                  from hc)]
                rw [hdt]
              rw [h2, hRR]
            · rw [applyUpd_tracked _ d
                (show isTracked { t with
                  servers := R,
                  type := TopologyType.ReplicaSetWithPrimary } d.address =
                  true from htr')]
              rw [applyTracked_eq_withprimary _ d rfl]
              have h2 : applyWithPrimary
                  { t with
                    servers := R,
                    type := TopologyType.ReplicaSetWithPrimary } d =
                  { t with
                    servers := replaceServer R d.address d,
                    type := checkHasPrimary
                      (replaceServer R d.address d) } := by
                unfold applyWithPrimary
                rw [if_neg (show ¬ setNameConflict
                  { t with
                    servers := R,
                    type := TopologyType.ReplicaSetWithPrimary } d = true
                  from hc)]
                rw [hdt]
              rw [h2, hRR, hcc]
          · have htr' : isTracked
                { t with
                  servers := R, type := checkHasPrimary R }
                d.address = false := by
              show trackedIn R d.address = false
              rw [← hR, trackedIn_replace]
              simpa using htr
            rw [applyUpd_untracked _ d htr']
      | RSSecondary =>
          have h1 : applyWithPrimary t d =
              { t with
                servers := replaceServer t.servers d.address d,
                type := checkHasPrimary
                  (replaceServer t.servers d.address d),
                setName := adoptName t d } := by
            unfold applyWithPrimary
            rw [if_neg hc]
            rw [hdt]
          rw [h1]
          generalize hR : replaceServer t.servers d.address d = R
          have hRR : replaceServer R d.address d = R := by
            rw [← hR]
            exact replaceServer_idem t.servers d.address d
          have hna : nameConflict (adoptOpt t.setName d.setName) d = false :=
            nameConflict_adopt t.setName d hc0
          by_cases htr : trackedIn t.servers d.address = true
          · have htr' : trackedIn R d.address = true := by
              rw [← hR, trackedIn_replace]
              exact htr
            rcases checkHasPrimary_cases R with hcc | hcc <;> rw [hcc]
            · rw [applyUpd_tracked _ d
                (show isTracked { t with
                  servers := R,
                  type := TopologyType.ReplicaSetNoPrimary,
                  setName := adoptName t d } d.address = true from htr')]
              rw [applyTracked_eq_noprimary _ d rfl]
              have hc' : ¬ setNameConflict
                  { t with
                    servers := R,
                    type := TopologyType.ReplicaSetNoPrimary,
                    setName := adoptName t d } d = true := by
                simp [setNameConflict, adoptName] at hna ⊢
                exact hna
              have h2 : applyNoPrimary
                  { t with
                    servers := R,
                    type := TopologyType.ReplicaSetNoPrimary,
                    setName := adoptName t d } d =
                  { t with
                    servers := replaceServer R d.address d,
                    type := TopologyType.ReplicaSetNoPrimary,
                    setName := adoptOpt (adoptOpt t.setName d.setName)
                      d.setName } := by
                unfold applyNoPrimary
                rw [if_neg hc']
                rw [hdt]
                rfl
              rw [h2, hRR,
                show adoptOpt (adoptOpt t.setName d.setName) d.setName =
                  adoptOpt t.setName d.setName from
                  adoptOpt_idem t.setName d.setName]
              rfl
            · rw [applyUpd_tracked _ d
                (show isTracked { t with
                  servers := R,
                  type := TopologyType.ReplicaSetWithPrimary,
                  setName := adoptName t d } d.address = true from htr')]
              rw [applyTracked_eq_withprimary _ d rfl]
              have hc' : ¬ setNameConflict
                  { t with
                    servers := R,
                    type := TopologyType.ReplicaSetWithPrimary,
                    setName := adoptName t d } d = true := by
                simp [setNameConflict, adoptName] at hna ⊢
                exact hna
              have h2 : applyWithPrimary
                  { t with
                    servers := R,
                    type := TopologyType.ReplicaSetWithPrimary,
                    setName := adoptName t d } d =
                  { t with
                    servers := replaceServer R d.address d,
                    type := checkHasPrimary (replaceServer R d.address d),
                    setName := adoptOpt (adoptOpt t.setName d.setName)
                      d.setName } := by
                unfold applyWithPrimary
                rw [if_neg hc']
                rw [hdt]
                rfl
              rw [h2, hRR, hcc,
                show adoptOpt (adoptOpt t.setName d.setName) d.setName =
                  adoptOpt t.setName d.setName from
                  adoptOpt_idem t.setName d.setName]
              rfl
          · have htr' : isTracked
                { t with
                  servers := R, type := checkHasPrimary R,
                  setName := adoptName t d } d.address = false := by
              show trackedIn R d.address = false
              rw [← hR, trackedIn_replace]
              simpa using htr
            rw [applyUpd_untracked _ d htr']

theorem applyUpd_idem (t : TopologyDescription) (d : ServerDescription) :
    applyUpd (applyUpd t d) d = applyUpd t d := by
  by_cases htr : isTracked t d.address = true
  · rw [applyUpd_tracked t d htr]
    cases ht : t.type with
    | Single =>
        rw [applyTracked_eq_single t d ht]
        exact applySingle_stable t d ht
    | Sharded =>
        rw [applyTracked_eq_sharded t d ht]
        exact applySharded_stable t d ht
    | Unknown =>
        rw [applyTracked_eq_unknown t d ht]
        exact applyUnknownState_stable t d ht
    | ReplicaSetNoPrimary =>
        rw [applyTracked_eq_noprimary t d ht]
        exact applyNoPrimary_stable t d ht
    | ReplicaSetWithPrimary =>
        rw [applyTracked_eq_withprimary t d ht]
        exact applyWithPrimary_stable t d ht
  · have h0 : isTracked t d.address = false := by simpa using htr
    rw [applyUpd_untracked t d h0, applyUpd_untracked t d h0]

theorem checkHasPrimary_ne_single (s : List (String × ServerDescription)) :
    checkHasPrimary s ≠ .Single := by
  unfold checkHasPrimary
  split <;> simp

theorem applyRSPrimary_inv (t : TopologyDescription) (d : ServerDescription)
    (h1 : primaryCount t ≤ 1) :
    primaryCount (applyRSPrimary t d) ≤ 1 ∧
      (applyRSPrimary t d).type ≠ .Single := by
  by_cases hacc : (decide (primaryAddr t = some d.address)
      || pairGt d.electionId d.setVersion t.maxElectionId t.maxSetVersion) =
      true
  · rw [applyRSPrimary_accept_eq t d hacc]
    constructor
    · show primaryCountIn (reconcileFromPrimary t d) ≤ 1
      exact primaryCountIn_reconcile_le_one t d
    · show checkHasPrimary (reconcileFromPrimary t d) ≠ .Single
      exact checkHasPrimary_ne_single _
  · have hacc0 : (decide (primaryAddr t = some d.address)
        || pairGt d.electionId d.setVersion t.maxElectionId t.maxSetVersion) =
        false := by simpa using hacc
    rw [applyRSPrimary_reject_eq t d hacc0]
    constructor
    · show primaryCountIn
        (replaceServer t.servers d.address (unknownServer d.address)) ≤ 1
      exact le_trans
        (primaryCountIn_replace_le t.servers d.address
          (unknownServer d.address) (by simp [unknownServer])) h1
    · show checkHasPrimary
        (replaceServer t.servers d.address (unknownServer d.address)) ≠
        .Single
      exact checkHasPrimary_ne_single _

theorem applySingle_inv (t : TopologyDescription) (d : ServerDescription)
    (ht : t.type = .Single) (h2 : t.servers.length ≤ 1) :
    primaryCount (applySingle t d) ≤ 1 ∧
      ((applySingle t d).type = .Single →
        (applySingle t d).servers.length ≤ 1) := by
  constructor
  · show primaryCountIn (replaceServer t.servers d.address d) ≤ 1
    refine le_trans (primaryCountIn_le_length _) ?_
    rw [length_replaceServer]
    exact h2
  · intro _
    show (replaceServer t.servers d.address d).length ≤ 1
    rw [length_replaceServer]
    exact h2

theorem applySharded_inv (t : TopologyDescription) (d : ServerDescription)
    (ht : t.type = .Sharded) (h1 : primaryCount t ≤ 1) :
    primaryCount (applySharded t d) ≤ 1 ∧
      ((applySharded t d).type = .Single →
        (applySharded t d).servers.length ≤ 1) := by
  by_cases hrec : d.type = .Unknown ∨ d.type = .Mongos
  · have heq : applySharded t d =
        { t with servers := replaceServer t.servers d.address d } := by
      unfold applySharded
      rcases hrec with h | h <;> rw [h]
    rw [heq]
    constructor
    · show primaryCountIn (replaceServer t.servers d.address d) ≤ 1
      refine le_trans (primaryCountIn_replace_le t.servers d.address d ?_) h1
      rcases hrec with h | h <;> simp [h]
    · intro hx
      have hx' : TopologyType.Sharded = TopologyType.Single := by
        rw [← ht]
        exact hx
      exact absurd hx' (by decide)
  · have heq : applySharded t d =
        { t with servers := removeServer t.servers d.address } := by
      unfold applySharded
      cases hdt : d.type with
      | Unknown => exact absurd (Or.inl hdt) hrec
      | Mongos => exact absurd (Or.inr hdt) hrec
      | Standalone => rfl
      | RSPrimary => rfl
      | RSSecondary => rfl
      | RSArbiter => rfl
      | RSOther => rfl
      | RSGhost => rfl
    rw [heq]
    constructor
    · show primaryCountIn (removeServer t.servers d.address) ≤ 1
      exact le_trans (primaryCountIn_remove_le t.servers d.address) h1
    · intro hx
      have hx' : TopologyType.Sharded = TopologyType.Single := by
        rw [← ht]
        exact hx
      exact absurd hx' (by decide)

theorem applyUnknownState_inv (t : TopologyDescription)
    (d : ServerDescription) (ht : t.type = .Unknown)
    (h1 : primaryCount t ≤ 1) :
    primaryCount (applyUnknownState t d) ≤ 1 ∧
      ((applyUnknownState t d).type = .Single →
        (applyUnknownState t d).servers.length ≤ 1) := by
  by_cases hc : setNameConflict t d = true
  · have heq : applyUnknownState t d =
        { t with servers := removeServer t.servers d.address } := by
      unfold applyUnknownState
      rw [if_pos hc]
    rw [heq]
    refine ⟨le_trans (primaryCountIn_remove_le t.servers d.address) h1, ?_⟩
    intro hx
    exact absurd (show TopologyType.Unknown = .Single by
      rw [← ht]; exact hx) (by decide)
  · cases hdt : d.type with
    | RSPrimary =>
        have heq : applyUnknownState t d = applyRSPrimary t d := by
          unfold applyUnknownState
          rw [if_neg hc]
          rw [hdt]
        rw [heq]
        obtain ⟨ha, hb⟩ := applyRSPrimary_inv t d h1
        exact ⟨ha, fun hx => absurd hx hb⟩
    | Standalone =>
        have heq : applyUnknownState t d =
            { t with type := .Single, servers := [(d.address, d)] } := by
          unfold applyUnknownState
          rw [if_neg hc]
          rw [hdt]
        rw [heq]
        constructor
        · show primaryCountIn [(d.address, d)] ≤ 1
          exact le_trans (primaryCountIn_le_length _) (by simp)
        · intro _
          show List.length [(d.address, d)] ≤ 1
          simp
    | Mongos =>
        have heq : applyUnknownState t d =
            { t with
              type := .Sharded,
              servers := replaceServer t.servers d.address d } := by
          unfold applyUnknownState
          rw [if_neg hc]
          rw [hdt]
        rw [heq]
        constructor
        · show primaryCountIn (replaceServer t.servers d.address d) ≤ 1
          exact le_trans (primaryCountIn_replace_le t.servers d.address d
            (by simp [hdt])) h1
        · intro hx
          exact absurd (show TopologyType.Sharded = .Single from hx)
            (by decide)
    | RSSecondary =>
        have heq : applyUnknownState t d =
            { t with
              type := .ReplicaSetNoPrimary,
              servers := replaceServer t.servers d.address d,
              setName := adoptName t d } := by
          unfold applyUnknownState
          rw [if_neg hc]
          rw [hdt]
        rw [heq]
        constructor
        · show primaryCountIn (replaceServer t.servers d.address d) ≤ 1
          exact le_trans (primaryCountIn_replace_le t.servers d.address d
            (by simp [hdt])) h1
        · intro hx
          exact absurd (show TopologyType.ReplicaSetNoPrimary = .Single
            from hx) (by decide)
    | Unknown =>
        have heq : applyUnknownState t d =
            { t with servers := replaceServer t.servers d.address d } := by
          unfold applyUnknownState
          rw [if_neg hc]
          rw [hdt]
        rw [heq]
        constructor
        · show primaryCountIn (replaceServer t.servers d.address d) ≤ 1
          exact le_trans (primaryCountIn_replace_le t.servers d.address d
            (by simp [hdt])) h1
        · intro hx
          exact absurd (show TopologyType.Unknown = .Single by
            rw [← ht]; exact hx) (by decide)
    | RSGhost =>
        have heq : applyUnknownState t d =
            { t with servers := replaceServer t.servers d.address d } := by
          unfold applyUnknownState
          rw [if_neg hc]
          rw [hdt]
        rw [heq]
        constructor
        · show primaryCountIn (replaceServer t.servers d.address d) ≤ 1
          exact le_trans (primaryCountIn_replace_le t.servers d.address d
            (by simp [hdt])) h1
        · intro hx
          exact absurd (show TopologyType.Unknown = .Single by
            rw [← ht]; exact hx) (by decide)
    | RSArbiter =>
        have heq : applyUnknownState t d =
            { t with servers := replaceServer t.servers d.address d } := by
          unfold applyUnknownState
          rw [if_neg hc]
          rw [hdt]
        rw [heq]
        constructor
        · show primaryCountIn (replaceServer t.servers d.address d) ≤ 1
          exact le_trans (primaryCountIn_replace_le t.servers d.address d
            (by simp [hdt])) h1
        · intro hx
          exact absurd (show TopologyType.Unknown = .Single by
            rw [← ht]; exact hx) (by decide)
    | RSOther =>
        have heq : applyUnknownState t d =
            { t with servers := replaceServer t.servers d.address d } := by
          unfold applyUnknownState
          rw [if_neg hc]
          rw [hdt]
        rw [heq]
        constructor
        · show primaryCountIn (replaceServer t.servers d.address d) ≤ 1
          exact le_trans (primaryCountIn_replace_le t.servers d.address d
            (by simp [hdt])) h1
        · intro hx
          exact absurd (show TopologyType.Unknown = .Single by
            rw [← ht]; exact hx) (by decide)

theorem applyNoPrimary_inv (t : TopologyDescription) (d : ServerDescription)
    (ht : t.type = .ReplicaSetNoPrimary) (h1 : primaryCount t ≤ 1) :
    primaryCount (applyNoPrimary t d) ≤ 1 ∧
      ((applyNoPrimary t d).type = .Single →
        (applyNoPrimary t d).servers.length ≤ 1) := by
  have hts : ∀ hx : TopologyType.ReplicaSetNoPrimary = TopologyType.Single,
      False := by decide
  by_cases hc : setNameConflict t d = true
  · have heq : applyNoPrimary t d =
        { t with servers := removeServer t.servers d.address } := by
      unfold applyNoPrimary
      rw [if_pos hc]
    rw [heq]
    refine ⟨le_trans (primaryCountIn_remove_le t.servers d.address) h1, ?_⟩
    intro hx
    exact absurd (show TopologyType.ReplicaSetNoPrimary = .Single by
      rw [← ht]; exact hx) (by decide)
  · cases hdt : d.type with
    | RSPrimary =>
        have heq : applyNoPrimary t d = applyRSPrimary t d := by
          unfold applyNoPrimary
          rw [if_neg hc]
          rw [hdt]
        rw [heq]
        obtain ⟨ha, hb⟩ := applyRSPrimary_inv t d h1
        exact ⟨ha, fun hx => absurd hx hb⟩
    | Standalone =>
        have heq : applyNoPrimary t d =
            { t with servers := removeServer t.servers d.address } := by
          unfold applyNoPrimary
          rw [if_neg hc]
          rw [hdt]
        rw [heq]
        refine ⟨le_trans (primaryCountIn_remove_le t.servers d.address) h1,
          ?_⟩
        intro hx
        exact absurd (show TopologyType.ReplicaSetNoPrimary = .Single by
          rw [← ht]; exact hx) (by decide)
    | Mongos =>
        have heq : applyNoPrimary t d =
            { t with servers := removeServer t.servers d.address } := by
          unfold applyNoPrimary
          rw [if_neg hc]
          rw [hdt]
        rw [heq]
        refine ⟨le_trans (primaryCountIn_remove_le t.servers d.address) h1,
          ?_⟩
        intro hx
        exact absurd (show TopologyType.ReplicaSetNoPrimary = .Single by
          rw [← ht]; exact hx) (by decide)
    | RSSecondary =>
        have heq : applyNoPrimary t d =
            { t with
              servers := replaceServer t.servers d.address d,
              setName := adoptName t d } := by
          unfold applyNoPrimary
          rw [if_neg hc]
          rw [hdt]
        rw [heq]
        constructor
        · show primaryCountIn (replaceServer t.servers d.address d) ≤ 1
          exact le_trans (primaryCountIn_replace_le t.servers d.address d
            (by simp [hdt])) h1
        · intro hx
          exact absurd (show TopologyType.ReplicaSetNoPrimary = .Single by
            rw [← ht]; exact hx) (by decide)
    | Unknown =>
        have heq : applyNoPrimary t d =
            { t with servers := replaceServer t.servers d.address d } := by
          unfold applyNoPrimary
          rw [if_neg hc]
          rw [hdt]
        rw [heq]
        constructor
        · show primaryCountIn (replaceServer t.servers d.address d) ≤ 1
          exact le_trans (primaryCountIn_replace_le t.servers d.address d
            (by simp [hdt])) h1
        · intro hx
          exact absurd (show TopologyType.ReplicaSetNoPrimary = .Single by
            rw [← ht]; exact hx) (by decide)
    | RSGhost =>
        have heq : applyNoPrimary t d =
            { t with servers := replaceServer t.servers d.address d } := by
          unfold applyNoPrimary
          rw [if_neg hc]
          rw [hdt]
        rw [heq]
        constructor
        · show primaryCountIn (replaceServer t.servers d.address d) ≤ 1
          exact le_trans (primaryCountIn_replace_le t.servers d.address d
            (by simp [hdt])) h1
        · intro hx
          exact absurd (show TopologyType.ReplicaSetNoPrimary = .Single by
            rw [← ht]; exact hx) (by decide)
    | RSArbiter =>
        have heq : applyNoPrimary t d =
            { t with servers := replaceServer t.servers d.address d } := by
          unfold applyNoPrimary
          rw [if_neg hc]
          rw [hdt]
        rw [heq]
        constructor
        · show primaryCountIn (replaceServer t.servers d.address d) ≤ 1
          exact le_trans (primaryCountIn_replace_le t.servers d.address d
            (by simp [hdt])) h1
        · intro hx
          exact absurd (show TopologyType.ReplicaSetNoPrimary = .Single by
            rw [← ht]; exact hx) (by decide)
    | RSOther =>
        have heq : applyNoPrimary t d =
            { t with servers := replaceServer t.servers d.address d } := by
          unfold applyNoPrimary
          rw [if_neg hc]
          rw [hdt]
        rw [heq]
        constructor
        · show primaryCountIn (replaceServer t.servers d.address d) ≤ 1
          exact le_trans (primaryCountIn_replace_le t.servers d.address d
            (by simp [hdt])) h1
        · intro hx
          exact absurd (show TopologyType.ReplicaSetNoPrimary = .Single by
            rw [← ht]; exact hx) (by decide)

theorem applyWithPrimary_inv (t : TopologyDescription)
    (d : ServerDescription) (ht : t.type = .ReplicaSetWithPrimary)
    (h1 : primaryCount t ≤ 1) :
    primaryCount (applyWithPrimary t d) ≤ 1 ∧
      ((applyWithPrimary t d).type = .Single →
        (applyWithPrimary t d).servers.length ≤ 1) := by
  by_cases hc : setNameConflict t d = true
  · have heq : applyWithPrimary t d =
        { t with
          servers := removeServer t.servers d.address,
          type := checkHasPrimary (removeServer t.servers d.address) } := by
      unfold applyWithPrimary
      rw [if_pos hc]
    rw [heq]
    refine ⟨le_trans (primaryCountIn_remove_le t.servers d.address) h1, ?_⟩
    intro hx
    exact absurd (show checkHasPrimary (removeServer t.servers d.address) =
      .Single from hx) (checkHasPrimary_ne_single _)
  · cases hdt : d.type with
    | RSPrimary =>
        have heq : applyWithPrimary t d = applyRSPrimary t d := by
          unfold applyWithPrimary
          rw [if_neg hc]
          rw [hdt]
        rw [heq]
        obtain ⟨ha, hb⟩ := applyRSPrimary_inv t d h1
        exact ⟨ha, fun hx => absurd hx hb⟩
    | Standalone =>
        have heq : applyWithPrimary t d =
            { t with
              servers := removeServer t.servers d.address,
              type := checkHasPrimary
                (removeServer t.servers d.address) } := by
          unfold applyWithPrimary
          rw [if_neg hc]
          rw [hdt]
        rw [heq]
        refine ⟨le_trans (primaryCountIn_remove_le t.servers d.address) h1,
          ?_⟩
        intro hx
        exact absurd (show checkHasPrimary
          (removeServer t.servers d.address) = .Single from hx)
          (checkHasPrimary_ne_single _)
    | Mongos =>
        have heq : applyWithPrimary t d =
            { t with
              servers := removeServer t.servers d.address,
              type := checkHasPrimary
                (removeServer t.servers d.address) } := by
          unfold applyWithPrimary
          rw [if_neg hc]
          rw [hdt]
        rw [heq]
        refine ⟨le_trans (primaryCountIn_remove_le t.servers d.address) h1,
          ?_⟩
        intro hx
        exact absurd (show checkHasPrimary
          (removeServer t.servers d.address) = .Single from hx)
          (checkHasPrimary_ne_single _)
    | Unknown =>
        have heq : applyWithPrimary t d =
            { t with
              servers := replaceServer t.servers d.address d,
              type := checkHasPrimary
                (replaceServer t.servers d.address d) } := by
          unfold applyWithPrimary
          rw [if_neg hc]
          rw [hdt]
        rw [heq]
        constructor
        · show primaryCountIn (replaceServer t.servers d.address d) ≤ 1
          exact le_trans (primaryCountIn_replace_le t.servers d.address d
            (by simp [hdt])) h1
        · intro hx
          exact absurd (show checkHasPrimary
            (replaceServer t.servers d.address d) = .Single from hx)
            (checkHasPrimary_ne_single _)
    | RSSecondary =>
        have heq : applyWithPrimary t d =
            { t with
              servers := replaceServer t.servers d.address d,
              type := checkHasPrimary (replaceServer t.servers d.address d),
              setName := adoptName t d } := by
          unfold applyWithPrimary
          rw [if_neg hc]
          rw [hdt]
        rw [heq]
        constructor
        · show primaryCountIn (replaceServer t.servers d.address d) ≤ 1
          exact le_trans (primaryCountIn_replace_le t.servers d.address d
            (by simp [hdt])) h1
        · intro hx
          exact absurd (show checkHasPrimary
            (replaceServer t.servers d.address d) = .Single from hx)
            (checkHasPrimary_ne_single _)
    | RSGhost =>
        have heq : applyWithPrimary t d =
            { t with servers := replaceServer t.servers d.address d } := by
          unfold applyWithPrimary
          rw [if_neg hc]
          rw [hdt]
        rw [heq]
        constructor
        · show primaryCountIn (replaceServer t.servers d.address d) ≤ 1
          exact le_trans (primaryCountIn_replace_le t.servers d.address d
            (by simp [hdt])) h1
        · intro hx
          exact absurd (show TopologyType.ReplicaSetWithPrimary = .Single by
            rw [← ht]; exact hx) (by decide)
    | RSArbiter =>
        have heq : applyWithPrimary t d =
            { t with servers := replaceServer t.servers d.address d } := by
          unfold applyWithPrimary
          rw [if_neg hc]
          rw [hdt]
        rw [heq]
        constructor
        · show primaryCountIn (replaceServer t.servers d.address d) ≤ 1
          exact le_trans (primaryCountIn_replace_le t.servers d.address d
            (by simp [hdt])) h1
        · intro hx
          exact absurd (show TopologyType.ReplicaSetWithPrimary = .Single by
            rw [← ht]; exact hx) (by decide)
    | RSOther =>
        have heq : applyWithPrimary t d =
            { t with servers := replaceServer t.servers d.address d } := by
          unfold applyWithPrimary
          rw [if_neg hc]
          rw [hdt]
        rw [heq]
        constructor
        · show primaryCountIn (replaceServer t.servers d.address d) ≤ 1
          exact le_trans (primaryCountIn_replace_le t.servers d.address d
            (by simp [hdt])) h1
        · intro hx
          exact absurd (show TopologyType.ReplicaSetWithPrimary = .Single by
            rw [← ht]; exact hx) (by decide)

theorem applyUpd_inv (t : TopologyDescription) (d : ServerDescription)
    (h1 : primaryCount t ≤ 1)
    (h2 : t.type = .Single → t.servers.length ≤ 1) :
    primaryCount (applyUpd t d) ≤ 1 ∧
      ((applyUpd t d).type = .Single →
        (applyUpd t d).servers.length ≤ 1) := by
  by_cases htr : isTracked t d.address = true
  · rw [applyUpd_tracked t d htr]
    cases ht : t.type with
    | Single =>
        rw [applyTracked_eq_single t d ht]
        exact applySingle_inv t d ht (h2 ht)
    | Sharded =>
        rw [applyTracked_eq_sharded t d ht]
        exact applySharded_inv t d ht h1
    | Unknown =>
        rw [applyTracked_eq_unknown t d ht]
        exact applyUnknownState_inv t d ht h1
    | ReplicaSetNoPrimary =>
        rw [applyTracked_eq_noprimary t d ht]
        exact applyNoPrimary_inv t d ht h1
    | ReplicaSetWithPrimary =>
        rw [applyTracked_eq_withprimary t d ht]
        exact applyWithPrimary_inv t d ht h1
  · rw [applyUpd_untracked t d (by simpa using htr)]
    exact ⟨h1, h2⟩

theorem foldl_applyUpd_inv (upds : List ServerDescription)
    (t : TopologyDescription) (h1 : primaryCount t ≤ 1)
    (h2 : t.type = .Single → t.servers.length ≤ 1) :
    primaryCount (upds.foldl applyUpd t) ≤ 1 := by
  induction upds generalizing t with
  | nil => simpa using h1
  | cons u us ih =>
    simp only [List.foldl_cons]
    obtain ⟨a, b⟩ := applyUpd_inv t u h1 h2
    exact ih (applyUpd t u) a b

theorem primaryCountIn_unknown_map (l : List String) :
    primaryCountIn (l.map fun a => (a, unknownServer a)) = 0 := by
  rw [primaryCountIn_eq_zero_iff, List.any_eq_false]
  intro x hx
  obtain ⟨h, _, rfl⟩ := List.mem_map.mp hx
  simp [isPrimaryEntry, unknownServer]

theorem initialTopology_primaryCount (seeds : List String) (direct : Bool) :
    primaryCount (initialTopology seeds direct) = 0 := by
  cases direct with
  | true =>
      show primaryCountIn ((seeds.take 1).map
        fun a => (a, unknownServer a)) = 0
      exact primaryCountIn_unknown_map _
  | false =>
      show primaryCountIn (seeds.dedup.map
        fun a => (a, unknownServer a)) = 0
      exact primaryCountIn_unknown_map _

theorem initialTopology_single_len (seeds : List String) (direct : Bool)
    (h : (initialTopology seeds direct).type = .Single) :
    (initialTopology seeds direct).servers.length ≤ 1 := by
  cases direct with
  | true =>
      show ((seeds.take 1).map fun a => (a, unknownServer a)).length ≤ 1
      simp [List.length_take]
  | false =>
      exact absurd (show TopologyType.Unknown = .Single from h) (by decide)

theorem applyUpd_primary_unknown (t : TopologyDescription)
    (d : ServerDescription) (ht : t.type = .ReplicaSetWithPrimary)
    (hcount : primaryCount t ≤ 1)
    (hpa : primaryAddr t = some d.address) (hdt : d.type = .Unknown) :
    (applyUpd t d).type = .ReplicaSetNoPrimary := by
  have htr : isTracked t d.address = true :=
    trackedIn_of_primaryAddrIn t.servers d.address hpa
  rw [applyUpd_tracked t d htr, applyTracked_eq_withprimary t d ht]
  have hc : ¬ setNameConflict t d = true := by
    simp [setNameConflict, nameConflict, isRSMemberType, hdt]
  have heq : applyWithPrimary t d =
      { t with
        servers := replaceServer t.servers d.address d,
        type := checkHasPrimary (replaceServer t.servers d.address d) } := by
    unfold applyWithPrimary
    rw [if_neg hc]
    rw [hdt]
  rw [heq]
  show checkHasPrimary (replaceServer t.servers d.address d) =
    .ReplicaSetNoPrimary
  have hany : (replaceServer t.servers d.address d).any isPrimaryEntry =
      false :=
    any_primary_replace_false t.servers d.address d (by simp [hdt])
      hcount hpa
  unfold checkHasPrimary
  rw [hany]
  simp

/-- C1: For every sequence of ServerDescription updates applied to a
Topology (constructed from any seed list, in direct or discovery mode),
every resulting TopologyDescription contains at most one server whose
type is `RSPrimary`. -/
theorem c1_at_most_one_primary (seeds : List String) (direct : Bool)
    (upds : List ServerDescription) :
    primaryCount (upds.foldl applyUpd (initialTopology seeds direct)) ≤ 1 :=
  foldl_applyUpd_inv upds (initialTopology seeds direct)
    (by rw [initialTopology_primaryCount]; exact Nat.zero_le 1)
    (initialTopology_single_len seeds direct)

/-- C2 counterexample: the claim "every incoming RSPrimary claim whose
`(electionId, setVersion)` pair is lexicographically not greater than the
recorded high-water marks is rejected and the reporting server demoted to
`Unknown`" fails when the claim comes from the current primary's own
address: `exPrimaryA` re-announces with pair `(1, 1)` equal to the marks
of `exTopo` (so not greater), yet `apply` keeps it as `RSPrimary` instead
of demoting it to `Unknown`. -/
theorem c2_counterexample :
    exPrimaryA.type = .RSPrimary ∧
    pairGt exPrimaryA.electionId exPrimaryA.setVersion
      exTopo.maxElectionId exTopo.maxSetVersion = false ∧
    isTracked exTopo exPrimaryA.address = true ∧
    lookupIn (applyUpd exTopo exPrimaryA).servers exPrimaryA.address ≠
      some (unknownServer exPrimaryA.address) ∧
    lookupIn (applyUpd exTopo exPrimaryA).servers exPrimaryA.address =
      some exPrimaryA := by
  decide

/-- C2 (amended): for every TopologyDescription in a replica-set-tracking
state (`Unknown`, `ReplicaSetNoPrimary` or `ReplicaSetWithPrimary`) and
every tracked incoming `RSPrimary` claim from an address other than the
current primary's, with no set-name conflict, whose
`(electionId, setVersion)` pair is lexicographically not greater than the
recorded high-water marks, `apply` rejects the claim: the reporting
server is demoted to `Unknown` and the primary assignment is unchanged. -/
theorem c2_amended_stale_claim_rejected (t : TopologyDescription)
    (d : ServerDescription)
    (htyp : t.type = .Unknown ∨ t.type = .ReplicaSetNoPrimary ∨
      t.type = .ReplicaSetWithPrimary)
    (hd : d.type = .RSPrimary)
    (htr : isTracked t d.address = true)
    (hconf : setNameConflict t d = false)
    (hne : primaryAddr t ≠ some d.address)
    (hstale : pairGt d.electionId d.setVersion t.maxElectionId
      t.maxSetVersion = false) :
    lookupIn (applyUpd t d).servers d.address =
      some (unknownServer d.address) ∧
    primaryAddr (applyUpd t d) = primaryAddr t := by
  rw [applyUpd_tracked t d htr]
  have hra : applyTracked t d = applyRSPrimary t d := by
    rcases htyp with h | h | h
    · rw [applyTracked_eq_unknown t d h]
      unfold applyUnknownState
      rw [if_neg (by simp [hconf])]
      rw [hd]
    · exact applyTracked_rsprimary t d hd hconf (Or.inl h)
    · exact applyTracked_rsprimary t d hd hconf (Or.inr h)
  rw [hra]
  have hacc0 : (decide (primaryAddr t = some d.address)
      || pairGt d.electionId d.setVersion t.maxElectionId t.maxSetVersion) =
      false := by
    simp [hne, hstale]
  rw [applyRSPrimary_reject_eq t d hacc0]
  constructor
  · show lookupIn (replaceServer t.servers d.address
      (unknownServer d.address)) d.address = some (unknownServer d.address)
    exact lookupIn_replace_self t.servers d.address
      (unknownServer d.address) htr
  · show primaryAddrIn (replaceServer t.servers d.address
      (unknownServer d.address)) = primaryAddrIn t.servers
    exact primaryAddrIn_replace_nonprimary t.servers d.address
      (unknownServer d.address) (by simp [unknownServer]) hne

/-- C2 witness: the amended statement evaluated on the stale claim
`exStaleB` (pair `(1, 1)` from `b:27017`) against `exTopo` (marks
`(1, 1)`, primary at `a:27017`). -/
theorem c2_amended_witness :
    (exTopo.type = .ReplicaSetWithPrimary ∧
      exStaleB.type = .RSPrimary ∧
      isTracked exTopo exStaleB.address = true ∧
      setNameConflict exTopo exStaleB = false ∧
      primaryAddr exTopo ≠ some exStaleB.address ∧
      pairGt exStaleB.electionId exStaleB.setVersion
        exTopo.maxElectionId exTopo.maxSetVersion = false) ∧
    (lookupIn (applyUpd exTopo exStaleB).servers exStaleB.address =
      some (unknownServer exStaleB.address) ∧
    primaryAddr (applyUpd exTopo exStaleB) = primaryAddr exTopo) :=
  ⟨by decide,
    c2_amended_stale_claim_rejected exTopo exStaleB
      (Or.inr (Or.inr (by decide))) (by decide) (by decide) (by decide)
      (by decide) (by decide)⟩

/-- C5: for every TopologyDescription of type `ReplicaSetWithPrimary`
(satisfying the at-most-one-primary invariant), applying an update from
the current primary's address whose type is `Unknown` — or which carries
an error, and therefore has type `Unknown` per the Monitor contract —
transitions the topology type to `ReplicaSetNoPrimary`. -/
theorem c5_primary_failure_demotes (t : TopologyDescription)
    (d : ServerDescription) (ht : t.type = .ReplicaSetWithPrimary)
    (hcount : primaryCount t ≤ 1)
    (hpa : primaryAddr t = some d.address)
    (hun : d.type = .Unknown ∨ d.error.isSome = true)
    (hwf : d.error.isSome = true → d.type = .Unknown) :
    (applyUpd t d).type = .ReplicaSetNoPrimary := by
  have hdt : d.type = .Unknown := by
    rcases hun with h | h
    · exact h
    · exact hwf h
  exact applyUpd_primary_unknown t d ht hcount hpa hdt

/-- C5 witness: the statement evaluated on `exTopo` (primary `a:27017`)
and the failed-probe description `exErrA` for that address. -/
theorem c5_witness :
    (exTopo.type = .ReplicaSetWithPrimary ∧
      primaryCount exTopo ≤ 1 ∧
      primaryAddr exTopo = some exErrA.address ∧
      exErrA.error.isSome = true) ∧
    (applyUpd exTopo exErrA).type = .ReplicaSetNoPrimary :=
  ⟨by decide,
    c5_primary_failure_demotes exTopo exErrA (by decide) (by decide)
      (by decide) (Or.inr (by decide)) (fun _ => by decide)⟩

/-- C6: applying the same ServerDescription twice yields the same
TopologyDescription as applying it once — `apply` is idempotent for
unchanged input. -/
theorem c6_apply_idempotent (t : TopologyDescription)
    (d : ServerDescription) :
    applyUpd (applyUpd t d) d = applyUpd t d :=
  applyUpd_idem t d

/-- C7: a ServerDescription produced by a Monitor check has type
`Unknown` whenever its `error` is present, and a failed probe always
produces type `Unknown` with the error populated. -/
theorem c7_error_implies_unknown (addr : String)
    (outcome : Except String HeartbeatReply) :
    ((serverDescriptionFromCheck addr outcome).error.isSome = true →
      (serverDescriptionFromCheck addr outcome).type = .Unknown) ∧
    (∀ e, outcome = .error e →
      (serverDescriptionFromCheck addr outcome).type = .Unknown ∧
      (serverDescriptionFromCheck addr outcome).error = some e) := by
  cases outcome with
  | ok r =>
      constructor
      · intro h
        simp [serverDescriptionFromCheck] at h
      · intro e he
        cases he
  | error e =>
      constructor
      · intro _
        rfl
      · intro e' he
        injection he with h
        subst h
        exact ⟨rfl, rfl⟩

/-- C7 witness: a concrete failed probe yields an error-carrying
`Unknown` description. -/
theorem c7_witness :
    (serverDescriptionFromCheck "a:27017"
      (Except.error "timeout")).error.isSome = true ∧
    (serverDescriptionFromCheck "a:27017"
      (Except.error "timeout")).type = .Unknown ∧
    (serverDescriptionFromCheck "a:27017"
      (Except.error "timeout")).error = some "timeout" := by
  have h := c7_error_implies_unknown "a:27017" (Except.error "timeout")
  exact ⟨by decide, h.1 (by decide), (h.2 "timeout" rfl).2⟩

/-- C3: for every single operation invocation, the RetryableExecutor
issues at most two attempts, and when the retry also fails the surfaced
outcome is the second attempt's error (the first attempt's error is
discarded). -/
theorem c3_at_most_two_attempts {A : Type} (retryableOp : Bool)
    (attempt : Nat → Except MongoError A) :
    (executeWithRetry retryableOp attempt).2 ≤ 2 ∧
    (∀ e1 e2, attempt 0 = .error e1 → attempt 1 = .error e2 →
      (retryableOp && e1.retryableClass) = true →
      (executeWithRetry retryableOp attempt).1 = .error e2) := by
  constructor
  · unfold executeWithRetry
    split
    · simp
    · split
      · split
        · simp
        · simp
      · simp
  · intro e1 e2 h0 h1 hr
    simp [executeWithRetry, h0, h1, hr]

/-- C3 witness: two consecutive retryable-class failures — one retry is
issued and the second error is surfaced. -/
theorem c3_witness :
    (executeWithRetry true (fun n =>
      if n = 0 then (Except.error ⟨"reset", true⟩ :
        Except MongoError String)
      else Except.error ⟨"shutdown", true⟩)).2 ≤ 2 ∧
    (executeWithRetry true (fun n =>
      if n = 0 then (Except.error ⟨"reset", true⟩ :
        Except MongoError String)
      else Except.error ⟨"shutdown", true⟩)).1 =
      Except.error ⟨"shutdown", true⟩ := by
  have h := c3_at_most_two_attempts true (fun n =>
    if n = 0 then (Except.error ⟨"reset", true⟩ : Except MongoError String)
    else Except.error ⟨"shutdown", true⟩)
  exact ⟨h.1, h.2 ⟨"reset", true⟩ ⟨"shutdown", true⟩ rfl rfl rfl⟩

end SdamCore

namespace GetMoreOp

/-- C8: `GetMoreOperation` is tagged `READ_OPERATION`, `RETRYABLE` and
`CURSOR_ITERATING`, and a retry of such a cursor-iterating operation
re-issues only the iteration call itself (`server.getMore`): every call
the executor issues for it, the retry included, is a getMore, never the
cursor-creating command. -/
theorem c8_retry_reissues_only_getmore (op : GetMoreOperation)
    (s1 s2 : Server) (session : SessionId) (retried : Bool) :
    Aspect.CURSOR_ITERATING ∈ getMoreAspects ∧
    Aspect.RETRYABLE ∈ getMoreAspects ∧
    (issuedCallsWithRetry op s1 s2 session retried).all isGetMoreCall =
      true := by
  refine ⟨by simp [getMoreAspects], by simp [getMoreAspects], ?_⟩
  cases retried <;>
    simp [issuedCallsWithRetry, GetMoreOperation.execute, isGetMoreCall]

/-- C9: `execute` issues the getMore against the server passed to it,
ignoring the server stored at construction time: the issued call names
the argument server, and changing the stored server does not change the
issued call. -/
theorem c9_execute_uses_argument_server (ns : String) (cursorId : Int)
    (s1 s1' : Server) (opts : GetMoreOptions) (s2 : Server)
    (session : SessionId) :
    GetMoreOperation.execute ⟨ns, cursorId, s1, opts⟩ s2 session =
      ServerCall.getMore s2 ns cursorId
        { opts with session := some session } ∧
    GetMoreOperation.execute ⟨ns, cursorId, s1, opts⟩ s2 session =
      GetMoreOperation.execute ⟨ns, cursorId, s1', opts⟩ s2 session :=
  ⟨rfl, rfl⟩

/-- C10: `execute` forwards its namespace and cursorId to
`server.getMore` unchanged and forwards its stored options with exactly
one modification — the `session` field is set to the session argument —
while `batchSize`, `comment` and `maxTimeMS` are unaltered. -/
theorem c10_execute_forwards_options (op : GetMoreOperation)
    (server : Server) (session : SessionId) :
    op.execute server session =
      ServerCall.getMore server op.ns op.cursorId
        { batchSize := op.options.batchSize,
          comment := op.options.comment,
          maxTimeMS := op.options.maxTimeMS,
          session := some session } :=
  rfl

end GetMoreOp
